import Mathlib

/-!
Shallow embedding of the settlement ("liquidación") engine of the
`procesador` Django app:

* the slot rule table and account/slot validation from `liquidacion.py`
  (`CASILLA_RULES`, `validar_prefijo_para_casilla`, `calcular_retencion`,
  `signo_por_naturaleza`);
* the decimal helpers `_parse_decimal` / `_decimal_to_str` from `views.py`;
* the row validator `_validar_filas_liquidacion` and the CSV export helpers
  (`obtener_cuenta`, `obtener_monto`, `obtener_porcentaje`) from `views.py`.

Python `Decimal` values are modelled as exact rationals (`ℚ`).  This is
faithful for every finite decimal value; the special values `NaN`/`Infinity`
that Python's `Decimal` constructor also accepts have no rational counterpart
and are treated as parse failures, and the 28-significant-digit context
precision of the `decimal` module is not modelled (all arithmetic reachable
here is exact well inside that precision).
-/

namespace Facturacion

/-- The seven settlement slots (`CASILLAS` in `liquidacion.py`). -/
inductive Casilla where
  | SUBTOTAL
  | IVA
  | INC
  | RETEFUENTE
  | RETEICA
  | RETEIVA
  | TOTAL_NETO
deriving DecidableEq

/-- The fixed processing order of the slots. -/
def CASILLAS : List Casilla :=
  [.SUBTOTAL, .IVA, .INC, .RETEFUENTE, .RETEICA, .RETEIVA, .TOTAL_NETO]

/-- Membership in the `RETENCIONES` set of `liquidacion.py`. -/
def esRetencion : Casilla → Bool
  | .RETEFUENTE | .RETEICA | .RETEIVA => true
  | _ => false

/-- Account nature: debit (`"D"`) or credit (`"C"`). -/
inductive Naturaleza where
  | D
  | C
deriving DecidableEq

/-- `CuentaContableProveedor.ModoCalculo` choices. -/
inductive ModoCalculo where
  | PORCENTAJE
  | PORMIL
deriving DecidableEq

/-- `CuentaContable`: a chart-of-accounts entry. -/
structure CuentaContable where
  codigo : String
  descripcion : String
deriving DecidableEq

/-- `CuentaContableProveedor`: a provider-specific catalog entry binding an
account to a slot.  `porcentaje` is nullable and `modo_calculo` may be blank
(modelled as `none`). -/
structure CuentaContableProveedor where
  id : ℤ
  proveedor_id : ℤ
  cuenta : CuentaContable
  casilla : Casilla
  naturaleza : Naturaleza
  porcentaje : Option ℚ
  modo_calculo : Option ModoCalculo
deriving DecidableEq

/-- One entry of the `CASILLA_RULES` table. -/
structure ReglasCasilla where
  prefijos : List String
  excluir : List String
  mensaje_sin_opciones : String
  naturaleza : Naturaleza
deriving DecidableEq

def MSG_SIN_OPCIONES_GENERICO : String :=
  "No hay opciones disponibles para esta casilla; parametrice el proveedor."

def MSG_SIN_OPCIONES_RETEFUENTE : String :=
  "El proveedor no tiene parametrizadas opciones para ReteFuente."

def MSG_SIN_OPCIONES_RETENCION : String :=
  "El proveedor no tiene parametrizadas opciones para esta retención."

/-- The `CASILLA_RULES` table of `liquidacion.py`.  Only `SUBTOTAL` carries an
`excluir` tuple in the source; for the other slots it is absent (empty). -/
def CASILLA_RULES : Casilla → ReglasCasilla
  | .SUBTOTAL =>
      { prefijos := ["2310", "2432", "N/A", "na", "BSP", "bsp"]
        excluir := ["231053152007"]
        mensaje_sin_opciones := MSG_SIN_OPCIONES_GENERICO
        naturaleza := .D }
  | .IVA =>
      { prefijos := ["2408", "N/A", "na", "BSP", "bsp"]
        excluir := []
        mensaje_sin_opciones := MSG_SIN_OPCIONES_GENERICO
        naturaleza := .D }
  | .INC =>
      { prefijos := ["231053152007", "N/A", "na", "BSP", "bsp"]
        excluir := []
        mensaje_sin_opciones := MSG_SIN_OPCIONES_GENERICO
        naturaleza := .D }
  | .RETEFUENTE =>
      { prefijos := ["2365", "N/A", "na", "BSP", "bsp"]
        excluir := []
        mensaje_sin_opciones := MSG_SIN_OPCIONES_RETEFUENTE
        naturaleza := .C }
  | .RETEICA =>
      { prefijos := ["2368", "N/A", "na", "BSP", "bsp"]
        excluir := []
        mensaje_sin_opciones := MSG_SIN_OPCIONES_RETENCION
        naturaleza := .C }
  | .RETEIVA =>
      { prefijos := ["2367", "N/A", "na", "BSP", "bsp"]
        excluir := []
        mensaje_sin_opciones := MSG_SIN_OPCIONES_RETENCION
        naturaleza := .C }
  | .TOTAL_NETO =>
      { prefijos := ["2335", "N/A", "na", "BSP", "bsp"]
        excluir := []
        mensaje_sin_opciones := MSG_SIN_OPCIONES_GENERICO
        naturaleza := .D }

/-- The `CASILLA_FIELD_MAP` of `liquidacion.py`. -/
def CASILLA_FIELD_MAP : Casilla → String
  | .SUBTOTAL => "subtotal"
  | .IVA => "iva"
  | .INC => "inc"
  | .RETEFUENTE => "retefuente"
  | .RETEICA => "reteica"
  | .RETEIVA => "reteiva"
  | .TOTAL_NETO => "total_neto"

def NATURALEZA_ERROR_MSG : String :=
  "La naturaleza de la cuenta seleccionada no coincide con la casilla esperada."

def CUENTA_PROVEEDOR_MSG : String :=
  "La cuenta seleccionada no pertenece al proveedor de la factura."

def CASILLA_ERROR_MSG : String :=
  "La cuenta seleccionada no corresponde a la casilla esperada."

def CAMPO_OBLIGATORIO_MSG : String :=
  "El campo ‘Cuenta contable’ es obligatorio porque el importe es distinto de cero."

def MSG_EXCLUSIVA_INC : String :=
  "La cuenta 231053152007 es exclusiva de INC."

/-- Python `codigo.startswith(pref)`, computed on the underlying character
lists. -/
def py_startswith (codigo pref : String) : Bool :=
  pref.data.isPrefixOf codigo.data

/-- Python `codigo.upper()`, computed on the underlying character list. -/
def py_upper (codigo : String) : String :=
  String.mk (codigo.data.map Char.toUpper)

/-- `es_cuenta_inc_exclusiva` from `liquidacion.py`. -/
def es_cuenta_inc_exclusiva (codigo : String) : Bool :=
  codigo == "231053152007"

/-- `validar_prefijo_para_casilla` from `liquidacion.py`: `none` means the
account code is acceptable for the slot, `some msg` is the rejection
message. -/
def validar_prefijo_para_casilla (casilla : Casilla) (codigo : String) : Option String :=
  if codigo = "" then
    none
  else
    let reglas := CASILLA_RULES casilla
    if casilla = .INC then
      if codigo = "231053152007" then none
      else if py_upper codigo ∈ ["N/A", "NA", "BSP", "bsp"] then none
      else some MSG_EXCLUSIVA_INC
    else if es_cuenta_inc_exclusiva codigo then
      some MSG_EXCLUSIVA_INC
    else if codigo ∈ reglas.excluir then
      some CASILLA_ERROR_MSG
    else if reglas.prefijos ≠ [] ∧ ¬ reglas.prefijos.any (fun pref => py_startswith codigo pref) then
      some CASILLA_ERROR_MSG
    else
      none

/-- `calcular_retencion` from `liquidacion.py`.  The Python source reads
`catalogo.porcentaje or Decimal("0")` and
`catalogo.modo_calculo or ModoCalculo.PORCENTAJE`: a missing (`None`)
percentage and a zero percentage both produce `Decimal("0")`, which as a
value coincides with `Option.getD 0`; a blank calculation mode falls back to
percentage mode.  All arithmetic is exact in `ℚ`. -/
def calcular_retencion (base : ℚ) (catalogo : CuentaContableProveedor) : ℚ × ℚ :=
  let porcentaje := catalogo.porcentaje.getD 0
  let modo := catalogo.modo_calculo.getD ModoCalculo.PORCENTAJE
  if modo = ModoCalculo.PORMIL then
    (porcentaje, base * porcentaje / 1000)
  else
    (porcentaje, base * porcentaje / 100)

/-- `signo_por_naturaleza` from `liquidacion.py`. -/
def signo_por_naturaleza (naturaleza : Naturaleza) : ℚ :=
  if naturaleza = Naturaleza.D then 1 else -1

/-! Decimal parsing and formatting (`_parse_decimal` / `_decimal_to_str` in
`views.py`).  All character-level work is done on `List Char` with structural
functions so that every definition evaluates inside the kernel. -/

/-- Python `str.strip()` whitespace: the ASCII whitespace recognised by
`Char.isWhitespace` plus the non-breaking space, vertical tab and form
feed. -/
def isPyWhitespace (c : Char) : Bool :=
  c.isWhitespace || c == '\u00A0' || c == '\u000B' || c == '\u000C'

/-- Python `str.strip()`: drop leading and trailing whitespace. -/
def stripEnds (l : List Char) : List Char :=
  ((l.dropWhile isPyWhitespace).reverse.dropWhile isPyWhitespace).reverse

/-- Python `s.replace(c, "")`: remove every occurrence of one character. -/
def removeChar (a : Char) (l : List Char) : List Char :=
  l.filter (fun c => c != a)

/-- Python `s.replace(a, b)` for single characters. -/
def replaceChar (a b : Char) (l : List Char) : List Char :=
  l.map (fun c => if c = a then b else c)

/-- Numeric value of a digit character. -/
def charDigit (c : Char) : ℕ :=
  c.toNat - 48

/-- Value of a most-significant-first digit string. -/
def digitsVal (l : List Char) : ℕ :=
  l.foldl (fun a c => 10 * a + charDigit c) 0

def notDot (c : Char) : Bool :=
  c != '.'

def notExpChar (c : Char) : Bool :=
  !(c == 'e' || c == 'E')

/-- Mantissa of a Python decimal numeric string: digits with at most one
point, at least one digit overall (`"12"`, `"12."`, `".5"`, `"1.5"`). -/
def parseMantissa (l : List Char) : Option ℚ :=
  let ip := l.takeWhile notDot
  let rest := l.dropWhile notDot
  match rest with
  | [] =>
      if ip.isEmpty then none
      else if ip.all Char.isDigit then some (digitsVal ip) else none
  | _ :: frac =>
      if frac.any (fun c => c == '.') then none
      else if !(ip.all Char.isDigit && frac.all Char.isDigit) then none
      else if ip.isEmpty && frac.isEmpty then none
      else some ((digitsVal ip : ℚ) + (digitsVal frac : ℚ) / (10 : ℚ) ^ frac.length)

/-- Optional leading sign of a decimal numeric string. -/
def splitSign (l : List Char) : ℚ × List Char :=
  match l with
  | [] => (1, [])
  | c :: t => if c = '+' then (1, t) else if c = '-' then (-1, t) else (1, c :: t)

/-- Exponent part of a decimal numeric string: optional sign and a nonempty
digit string. -/
def parseExpVal (l : List Char) : Option ℤ :=
  let sgnRest : ℤ × List Char :=
    match l with
    | [] => (1, [])
    | c :: t => if c = '+' then (1, t) else if c = '-' then (-1, t) else (1, c :: t)
  if sgnRest.2.isEmpty then none
  else if sgnRest.2.all Char.isDigit then some (sgnRest.1 * digitsVal sgnRest.2) else none

/-- The `Decimal(str)` constructor on finite numeric strings: surrounding
whitespace is ignored, then an optional sign, a mantissa and an optional
exponent are read.  The special values `NaN`/`Infinity` accepted by Python
have no rational counterpart and are outside this model (treated as parse
failures); no value reachable from the engine produces them. -/
def pyDecimalOfChars (l : List Char) : Option ℚ :=
  let l1 := stripEnds l
  let sgnRest := splitSign l1
  let mant := sgnRest.2.takeWhile notExpChar
  let rest := sgnRest.2.dropWhile notExpChar
  match parseMantissa mant, rest with
  | some q, [] => some (sgnRest.1 * q)
  | some q, _ :: expChars =>
      match parseExpVal expChars with
      | some e => some (sgnRest.1 * q * (10 : ℚ) ^ e)
      | none => none
  | none, _ => none

/-- The separator heuristic of `_parse_decimal`: a single comma with no dot
is the decimal point; in every other case commas are grouping separators and
are dropped. -/
def separar_decimales (cleaned : List Char) : List Char :=
  if cleaned.count ',' = 1 ∧ cleaned.count '.' = 0 then replaceChar ',' '.' cleaned
  else removeChar ',' cleaned

/-- `_parse_decimal` from `views.py`: strip, drop dollar signs, apply the
separator heuristic, then parse; any failure yields the default. -/
def _parse_decimal (value : Option String) (default : ℚ) : ℚ :=
  match value with
  | none => default
  | some v =>
      let cleaned := removeChar '$' (stripEnds v.data)
      if cleaned.isEmpty then default
      else
        match pyDecimalOfChars (separar_decimales cleaned) with
        | some q => q
        | none => default

/-- `ROUND_HALF_UP` at integer precision: round to the nearest integer with
ties away from zero. -/
def roundHalfUpInt (x : ℚ) : ℤ :=
  if x < 0 then -⌊-x + 1 / 2⌋ else ⌊x + 1 / 2⌋

/-- `value.quantize(Decimal(1).scaleb(-places), rounding=ROUND_HALF_UP)` as a
rational. -/
def quantizePy (places : ℕ) (x : ℚ) : ℚ :=
  (roundHalfUpInt (x * (10 : ℚ) ^ places) : ℚ) / (10 : ℚ) ^ places

/-- Character of a digit value. -/
def digitChar (d : ℕ) : Char :=
  Char.ofNat (48 + d)

/-- Python `str(n)` for a natural number. -/
def natToChars (m : ℕ) : List Char :=
  if m = 0 then ['0'] else (Nat.digits 10 m).reverse.map digitChar

/-- Zero padding on the left up to a given width. -/
def padLeftZeros (k : ℕ) (l : List Char) : List Char :=
  List.replicate (k - l.length) '0' ++ l

/-- `_decimal_to_str` from `views.py`: quantize with `ROUND_HALF_UP` to the
requested number of places and print canonically; for a positive number of
places the fractional part always has exactly `places` digits.  A Python
`Decimal` negative zero keeps its sign when printed; the rational model has a
single zero, printed without sign (both re-parse to the same value). -/
def _decimal_to_str (x : ℚ) (places : ℕ) : String :=
  let n := roundHalfUpInt (x * (10 : ℚ) ^ places)
  let a := n.natAbs
  String.mk
    ((if n < 0 then ['-'] else []) ++ natToChars (a / 10 ^ places) ++
      (if places = 0 then [] else '.' :: padLeftZeros places (natToChars (a % 10 ^ places))))

/-! The row validator `_validar_filas_liquidacion` of `views.py`.  A request
row is a JSON object with the keys read by the validator; its `importes`,
`cuentas` and `porcentajes` sub-objects are modelled with one optional field
per slot (a missing key and a missing sub-object both read as `None`). -/

/-- Per-slot raw amount strings (`fila["importes"]`). -/
structure Importes where
  subtotal : Option String
  iva : Option String
  inc : Option String
  retefuente : Option String
  reteica : Option String
  reteiva : Option String
  total_neto : Option String
deriving DecidableEq

/-- Per-withholding-slot raw percentage strings (`fila["porcentajes"]`);
only the three withholding keys are ever read. -/
structure Porcentajes where
  retefuente : Option String
  reteica : Option String
  reteiva : Option String
deriving DecidableEq

/-- A value of `fila["cuentas"][campo]` other than `None`: the empty string,
an `int()`-convertible identifier, or anything on which `int()` raises (the
`except` branch leaves the entry unresolved). -/
inductive CuentaInput where
  | vacia
  | id (n : ℤ)
  | invalida
deriving DecidableEq

/-- Per-slot chosen-account values (`fila["cuentas"]`). -/
structure Cuentas where
  subtotal : Option CuentaInput
  iva : Option CuentaInput
  inc : Option CuentaInput
  retefuente : Option CuentaInput
  reteica : Option CuentaInput
  reteiva : Option CuentaInput
  total_neto : Option CuentaInput
deriving DecidableEq

/-- One settlement-row request object.  The trailing string fields are the
descriptive keys read back by the CSV export (`original.get(...)`). -/
structure Fila where
  factura_id : Option ℤ
  proveedor_id : Option ℤ
  importes : Importes
  cuentas : Cuentas
  porcentajes : Porcentajes
  tipo_documento : Option String
  cufe : Option String
  nit : Option String
  proveedor : Option String
  fecha : Option String
  descripcion : Option String
  prefijo_folio : Option String
deriving DecidableEq

/-- A request row with every key absent. -/
def filaVacia : Fila :=
  { factura_id := none, proveedor_id := none
    importes := ⟨none, none, none, none, none, none, none⟩
    cuentas := ⟨none, none, none, none, none, none, none⟩
    porcentajes := ⟨none, none, none⟩
    tipo_documento := none, cufe := none, nit := none, proveedor := none
    fecha := none, descripcion := none, prefijo_folio := none }

/-- `fila["importes"].get(campo)` by slot. -/
def importeOf (f : Fila) : Casilla → Option String
  | .SUBTOTAL => f.importes.subtotal
  | .IVA => f.importes.iva
  | .INC => f.importes.inc
  | .RETEFUENTE => f.importes.retefuente
  | .RETEICA => f.importes.reteica
  | .RETEIVA => f.importes.reteiva
  | .TOTAL_NETO => f.importes.total_neto

/-- `fila["cuentas"].get(campo)` by slot. -/
def cuentaOf (f : Fila) : Casilla → Option CuentaInput
  | .SUBTOTAL => f.cuentas.subtotal
  | .IVA => f.cuentas.iva
  | .INC => f.cuentas.inc
  | .RETEFUENTE => f.cuentas.retefuente
  | .RETEICA => f.cuentas.reteica
  | .RETEIVA => f.cuentas.reteiva
  | .TOTAL_NETO => f.cuentas.total_neto

/-- `fila["porcentajes"].get(campo)`; only read for withholding slots. -/
def porcentajeOf (f : Fila) : Casilla → Option String
  | .RETEFUENTE => f.porcentajes.retefuente
  | .RETEICA => f.porcentajes.reteica
  | .RETEIVA => f.porcentajes.reteiva
  | _ => none

/-- The catalog index built by `agrupar_catalogos_por_proveedor`: active
entries grouped by `(proveedor_id, casilla)` and indexed by their own id.
A row whose `proveedor_id` is `None` can never hit a grouped key, so the
lookup by key takes a plain integer. -/
structure Catalogos where
  porClave : ℤ → Casilla → List CuentaContableProveedor
  porId : ℤ → Option CuentaContableProveedor

/-- An empty catalog index. -/
def catalogosVacios : Catalogos :=
  { porClave := fun _ _ => [], porId := fun _ => none }

/-- One validation finding, as appended to `errores`. -/
structure ErrorLiq where
  fila : Option ℕ
  factura_id : Option ℤ
  campo : Option String
  mensaje : String
deriving DecidableEq

/-- The per-slot `casilla_info` dictionary. -/
structure CasillaInfo where
  monto : ℚ
  catalogo : Option CuentaContableProveedor
  porcentaje : Option ℚ
  valor : Option ℚ
  naturaleza : Naturaleza
deriving DecidableEq

/-- The three withholding accumulators (`retefuente_val`, `reteica_val`,
`reteiva_val`), initialised to zero per row. -/
structure Retenciones where
  retefuente_val : ℚ
  reteica_val : ℚ
  reteiva_val : ℚ
deriving DecidableEq

/-- Write one withholding accumulator. -/
def setRetencion (acc : Retenciones) (casilla : Casilla) (v : ℚ) : Retenciones :=
  match casilla with
  | .RETEFUENTE => { acc with retefuente_val := v }
  | .RETEICA => { acc with reteica_val := v }
  | .RETEIVA => { acc with reteiva_val := v }
  | _ => acc

/-- Python `cuenta_id in (None, "")`. -/
def esVaciaCuenta : Option CuentaInput → Bool
  | none => true
  | some .vacia => true
  | _ => false

/-- The account-resolution chain of `_validar_filas_liquidacion` for one
slot (the `if cuenta_id not in (None, "")` block): look the id up, check
provider ownership, slot tag, prefix rule and — as a separate final check —
nature agreement.  Returns the fetched entry (kept even when a check fails,
exactly as the Python local `catalogo` does), the `catalogo_valido` flag,
and the findings emitted, in order. -/
def resolver_cuenta (cat : Catalogos) (indice : ℕ) (fila : Fila) (casilla : Casilla)
    (campo : String) (cuenta_id : Option CuentaInput) :
    Option CuentaContableProveedor × Bool × List ErrorLiq :=
  if esVaciaCuenta cuenta_id then
    (none, true, [])
  else
    let catalogo : Option CuentaContableProveedor :=
      match cuenta_id with
      | some (.id n) => cat.porId n
      | _ => none
    let paso1 : Bool × List ErrorLiq :=
      match catalogo with
      | none =>
          (false, [⟨some indice, fila.factura_id, some campo, CUENTA_PROVEEDOR_MSG⟩])
      | some cc =>
          match fila.proveedor_id with
          | none =>
              (false, [⟨some indice, fila.factura_id, some campo, CUENTA_PROVEEDOR_MSG⟩])
          | some pid =>
              if cc.proveedor_id ≠ pid then
                (false, [⟨some indice, fila.factura_id, some campo, CUENTA_PROVEEDOR_MSG⟩])
              else if cc.casilla ≠ casilla then
                (false, [⟨some indice, fila.factura_id, some campo, CASILLA_ERROR_MSG⟩])
              else
                match validar_prefijo_para_casilla casilla cc.cuenta.codigo with
                | some m => (false, [⟨some indice, fila.factura_id, some campo, m⟩])
                | none => (true, [])
    match catalogo with
    | some cc =>
        if paso1.1 ∧ cc.naturaleza ≠ (CASILLA_RULES casilla).naturaleza then
          (catalogo, false,
            paso1.2 ++ [⟨some indice, fila.factura_id, some campo, NATURALEZA_ERROR_MSG⟩])
        else
          (catalogo, paso1.1, paso1.2)
    | none => (catalogo, paso1.1, paso1.2)

/-- The leading `if monto != Decimal("0")` block of the per-slot loop: a
non-zero amount demands catalog options and a chosen account. -/
def errores_monto (indice : ℕ) (fila : Fila) (casilla : Casilla) (campo : String)
    (monto : ℚ) (opciones : List CuentaContableProveedor)
    (cuenta_id : Option CuentaInput) : List ErrorLiq :=
  if monto ≠ 0 then
    if opciones.isEmpty then
      [⟨some indice, fila.factura_id, some campo, (CASILLA_RULES casilla).mensaje_sin_opciones⟩]
    else if esVaciaCuenta cuenta_id then
      [⟨some indice, fila.factura_id, some campo, CAMPO_OBLIGATORIO_MSG⟩]
    else []
  else []

/-- The `casilla_info` dictionary as first built, before the
retention/net-total branches. -/
def info_inicial (monto : ℚ) (catalogoValido : Option CuentaContableProveedor)
    (casilla : Casilla) : CasillaInfo :=
  { monto := monto
    catalogo := catalogoValido
    porcentaje := none
    valor := none
    naturaleza :=
      match catalogoValido with
      | some cc => cc.naturaleza
      | none => (CASILLA_RULES casilla).naturaleza }

/-- The withholding branch of the per-slot loop (`if casilla in RETENCIONES
and catalogo_valido and catalogo is not None: ... elif casilla in
RETENCIONES: ... else: ...`).  `catalogoValido` is the resolved entry when
`catalogo_valido` held, `none` otherwise. -/
def aplicar_retencion (indice : ℕ) (fila : Fila) (casilla : Casilla) (campo : String)
    (subtotal monto : ℚ) (porcentaje_input : Option ℚ)
    (catalogoValido : Option CuentaContableProveedor) (info0 : CasillaInfo)
    (acc : Retenciones) : CasillaInfo × List ErrorLiq × Retenciones :=
  if esRetencion casilla then
    match catalogoValido with
    | some cc =>
        match cc.porcentaje with
        | none =>
            (info0,
              [⟨some indice, fila.factura_id, some campo,
                (CASILLA_RULES casilla).mensaje_sin_opciones⟩],
              acc)
        | some _ =>
            let pv := calcular_retencion subtotal cc
            ({ info0 with porcentaje := some pv.1, valor := some pv.2, monto := pv.2 },
              [], setRetencion acc casilla pv.2)
    | none =>
        ({ info0 with porcentaje := some (porcentaje_input.getD 0), valor := some monto },
          [], setRetencion acc casilla monto)
  else
    ({ info0 with valor := some monto }, [], acc)

/-- The net-total override of the per-slot loop (`if casilla ==
"TOTAL_NETO": ...`). -/
def aplicar_total_neto (indice : ℕ) (fila : Fila) (casilla : Casilla) (campo : String)
    (subtotal iva inc : ℚ) (cuenta_id : Option CuentaInput)
    (info1 : CasillaInfo) (acc1 : Retenciones) : CasillaInfo × List ErrorLiq :=
  if casilla = Casilla.TOTAL_NETO then
    let total_calculado :=
      subtotal + iva + inc - acc1.retefuente_val - acc1.reteica_val - acc1.reteiva_val
    ({ info1 with valor := some total_calculado, monto := total_calculado },
      if total_calculado ≠ 0 ∧ esVaciaCuenta cuenta_id then
        [⟨some indice, fila.factura_id, some campo, CAMPO_OBLIGATORIO_MSG⟩]
      else [])
  else
    (info1, [])

/-- One iteration of the `for casilla in CASILLAS` loop of
`_validar_filas_liquidacion`: build the slot's `casilla_info`, emit its
findings in source order, and thread the withholding accumulators. -/
def procesar_casilla (cat : Catalogos) (indice : ℕ) (fila : Fila)
    (subtotal iva inc : ℚ) (acc : Retenciones) (casilla : Casilla) :
    CasillaInfo × List ErrorLiq × Retenciones :=
  let campo := CASILLA_FIELD_MAP casilla
  let monto := _parse_decimal (importeOf fila casilla) 0
  let cuenta_id := cuentaOf fila casilla
  let porcentaje_input : Option ℚ :=
    if esRetencion casilla then some (_parse_decimal (porcentajeOf fila casilla) 0) else none
  let opciones : List CuentaContableProveedor :=
    match fila.proveedor_id with
    | none => []
    | some pid => cat.porClave pid casilla
  let e1 := errores_monto indice fila casilla campo monto opciones cuenta_id
  let res := resolver_cuenta cat indice fila casilla campo cuenta_id
  let catalogoValido := if res.2.1 then res.1 else none
  let info0 := info_inicial monto catalogoValido casilla
  let paso2 :=
    aplicar_retencion indice fila casilla campo subtotal monto porcentaje_input
      catalogoValido info0 acc
  let paso3 :=
    aplicar_total_neto indice fila casilla campo subtotal iva inc cuenta_id
      paso2.1 paso2.2.2
  (paso3.1, e1 ++ res.2.2 ++ paso2.2.1 ++ paso3.2, paso2.2.2)

/-- The per-row result appended to `filas_resultado`. -/
structure FilaResultado where
  indice : ℕ
  factura_id : Option ℤ
  proveedor_id : Option ℤ
  original : Fila
  casillas : Casilla → CasillaInfo
  subtotal : ℚ
  iva : ℚ
  inc : ℚ
  retefuente : ℚ
  reteica : ℚ
  reteiva : ℚ
  total_neto : ℚ

/-- One iteration of the `for indice, fila in enumerate(filas)` loop: parse
the three base amounts, run the seven slots in their fixed order, and build
the result row. -/
def procesar_fila (cat : Catalogos) (indice : ℕ) (fila : Fila) :
    List ErrorLiq × FilaResultado :=
  let subtotal := _parse_decimal fila.importes.subtotal 0
  let iva := _parse_decimal fila.importes.iva 0
  let inc := _parse_decimal fila.importes.inc 0
  let r1 := procesar_casilla cat indice fila subtotal iva inc ⟨0, 0, 0⟩ .SUBTOTAL
  let r2 := procesar_casilla cat indice fila subtotal iva inc r1.2.2 .IVA
  let r3 := procesar_casilla cat indice fila subtotal iva inc r2.2.2 .INC
  let r4 := procesar_casilla cat indice fila subtotal iva inc r3.2.2 .RETEFUENTE
  let r5 := procesar_casilla cat indice fila subtotal iva inc r4.2.2 .RETEICA
  let r6 := procesar_casilla cat indice fila subtotal iva inc r5.2.2 .RETEIVA
  let r7 := procesar_casilla cat indice fila subtotal iva inc r6.2.2 .TOTAL_NETO
  let accF := r7.2.2
  (r1.2.1 ++ r2.2.1 ++ r3.2.1 ++ r4.2.1 ++ r5.2.1 ++ r6.2.1 ++ r7.2.1,
    { indice := indice
      factura_id := fila.factura_id
      proveedor_id := fila.proveedor_id
      original := fila
      casillas := fun c =>
        match c with
        | .SUBTOTAL => r1.1
        | .IVA => r2.1
        | .INC => r3.1
        | .RETEFUENTE => r4.1
        | .RETEICA => r5.1
        | .RETEIVA => r6.1
        | .TOTAL_NETO => r7.1
      subtotal := subtotal
      iva := iva
      inc := inc
      retefuente := accF.retefuente_val
      reteica := accF.reteica_val
      reteiva := accF.reteiva_val
      total_neto :=
        subtotal + iva + inc - accF.retefuente_val - accF.reteica_val - accF.reteiva_val })

/-- One element of the incoming `filas` list: a JSON object (a row request)
or any other JSON value, on which attribute access raises. -/
inductive RowItem where
  | obj (fila : Fila)
  | nonObj
deriving DecidableEq

def RowItem.esObj : RowItem → Bool
  | .obj _ => true
  | .nonObj => false

def RowItem.toFila : RowItem → Option Fila
  | .obj f => some f
  | .nonObj => none

/-- The incoming `filas` value: either not a Python list at all, or a list
of arbitrary JSON values. -/
inductive Payload where
  | notList
  | list (items : List RowItem)

/-- `_validar_filas_liquidacion` from `views.py`.  A non-list payload is
answered with the single top-level "Formato inválido." finding and no rows.
A list is first swept by the `proveedor_ids` set comprehension, which calls
`.get` on every element: any non-object element raises an uncaught
`AttributeError`, modelled as `Except.error ()`.  A list of row objects is
processed row by row with `procesar_fila`. -/
def _validar_filas_liquidacion (cat : Catalogos) (filas : Payload) :
    Except Unit (List ErrorLiq × List FilaResultado) :=
  match filas with
  | .notList => .ok ([⟨none, none, none, "Formato inválido."⟩], [])
  | .list items =>
      if items.all RowItem.esObj then
        let procesadas := (items.filterMap RowItem.toFila).enum.map
          (fun p => procesar_fila cat p.1 p.2)
        .ok ((procesadas.map Prod.fst).flatten, procesadas.map Prod.snd)
      else
        .error ()

/-! CSV export helpers from `liquidacion_exportar` in `views.py`. -/

/-- `obtener_cuenta`: the account column of a slot — the resolved entry's
account code, or the empty string when the slot has no resolved entry. -/
def obtener_cuenta (info : CasillaInfo) : String :=
  match info.catalogo with
  | some catalogo => catalogo.cuenta.codigo
  | none => ""

/-- `obtener_monto`: the slot's value (falling back to its amount), signed by
`signo_por_naturaleza`; Python's `(valor or Decimal("0"))` maps a zero to
zero and is the identity on values. -/
def obtener_monto (info : CasillaInfo) : ℚ :=
  let valor := match info.valor with
    | some v => v
    | none => info.monto
  valor * signo_por_naturaleza info.naturaleza

/-- `obtener_porcentaje`: the slot's percentage (zero when unset) at 4
places. -/
def obtener_porcentaje (info : CasillaInfo) : String :=
  _decimal_to_str (info.porcentaje.getD 0) 4

/-- `original.get(key, "")`. -/
def strOptOrEmpty (v : Option String) : String :=
  v.getD ""

/-- A slot value that may be `None` reaches `_decimal_to_str` as a
non-`Decimal` and is re-parsed by `_parse_decimal`, which maps `None` to the
default `0`. -/
def _decimal_to_str_opt (v : Option ℚ) (places : ℕ) : String :=
  _decimal_to_str (v.getD 0) places

/-- One data row of the exported CSV (the 24 fixed columns, in order). -/
structure ExportRow where
  tipo_documento : String
  cufe : String
  nit : String
  proveedor : String
  fecha : String
  descripcion : String
  prefijo_folio : String
  sub_total : String
  sub_total_cuenta : String
  iva : String
  iva_cuenta : String
  inc : String
  inc_cuenta : String
  retefuente_pct : String
  retefuente_valor : String
  retefuente_cuenta : String
  reteica_pct : String
  reteica_valor : String
  reteica_cuenta : String
  reteiva_pct : String
  reteiva_valor : String
  reteiva_cuenta : String
  total_neto : String
  total_neto_cuenta : String
deriving DecidableEq

/-- The `writer.writerow` dictionary of `liquidacion_exportar` for one
validated row.  The `casillas.get(c, {}).get("valor", ...)` defaults are
never taken because every slot key is present with a `"valor"` key. -/
def exportar_fila (fila : FilaResultado) : ExportRow :=
  let casillas := fila.casillas
  { tipo_documento := strOptOrEmpty fila.original.tipo_documento
    cufe := strOptOrEmpty fila.original.cufe
    nit := strOptOrEmpty fila.original.nit
    proveedor := strOptOrEmpty fila.original.proveedor
    fecha := strOptOrEmpty fila.original.fecha
    descripcion := strOptOrEmpty fila.original.descripcion
    prefijo_folio := strOptOrEmpty fila.original.prefijo_folio
    sub_total := _decimal_to_str_opt (casillas .SUBTOTAL).valor 2
    sub_total_cuenta := obtener_cuenta (casillas .SUBTOTAL)
    iva := _decimal_to_str_opt (casillas .IVA).valor 2
    iva_cuenta := obtener_cuenta (casillas .IVA)
    inc := _decimal_to_str_opt (casillas .INC).valor 2
    inc_cuenta := obtener_cuenta (casillas .INC)
    retefuente_pct := obtener_porcentaje (casillas .RETEFUENTE)
    retefuente_valor := _decimal_to_str (obtener_monto (casillas .RETEFUENTE)) 2
    retefuente_cuenta := obtener_cuenta (casillas .RETEFUENTE)
    reteica_pct := obtener_porcentaje (casillas .RETEICA)
    reteica_valor := _decimal_to_str (obtener_monto (casillas .RETEICA)) 2
    reteica_cuenta := obtener_cuenta (casillas .RETEICA)
    reteiva_pct := obtener_porcentaje (casillas .RETEIVA)
    reteiva_valor := _decimal_to_str (obtener_monto (casillas .RETEIVA)) 2
    reteiva_cuenta := obtener_cuenta (casillas .RETEIVA)
    total_neto := _decimal_to_str fila.total_neto 2
    total_neto_cuenta := obtener_cuenta (casillas .TOTAL_NETO) }

/-! Auxiliary definitions used by the claim statements and their concrete
instances. -/

/-- Whether a finding list contains an "account is required" finding for a
given field. -/
def tieneObligatorio (errs : List ErrorLiq) (campo : String) : Bool :=
  errs.any (fun e => e.campo == some campo && e.mensaje == CAMPO_OBLIGATORIO_MSG)

/-- The withholding accumulator of a result row for a withholding slot. -/
def valorRetencionFila (r : FilaResultado) : Casilla → ℚ
  | .RETEFUENTE => r.retefuente
  | .RETEICA => r.reteica
  | .RETEIVA => r.reteiva
  | _ => 0

/-- One equivalent of the spec's description of `parseAmount`, as amended:
strip whitespace and currency signs; empty text yields zero; exactly one
comma and no dot makes the comma the decimal point; otherwise (including
every mixed pattern of commas and dots) the dot is the decimal point and all
commas are dropped as grouping; text that still fails to parse yields
exactly zero. -/
def parseAmountSpec (value : Option String) : ℚ :=
  match value with
  | none => 0
  | some s =>
      let t := removeChar '$' (stripEnds s.data)
      if t.isEmpty then 0
      else if t.count ',' = 1 ∧ t.count '.' = 0 then
        (pyDecimalOfChars (replaceChar ',' '.' t)).getD 0
      else
        (pyDecimalOfChars (removeChar ',' t)).getD 0

/-- A row whose subtotal is `100` and whose supplied net total is the literal
`"0"`, with no accounts chosen. -/
def filaC4 : Fila :=
  { filaVacia with importes := ⟨some "100", none, none, none, none, none, some "0"⟩ }

/-- A row that chooses account id `99` for the subtotal slot. -/
def filaCuentaDesconocida : Fila :=
  { filaVacia with cuentas := ⟨some (.id 99), none, none, none, none, none, none⟩ }

/-- A catalog entry for the income-withholding slot with no percentage
configured. -/
def entradaSinPorcentaje : CuentaContableProveedor :=
  { id := 4, proveedor_id := 5
    cuenta := { codigo := "2365001000", descripcion := "ReteFuente" }
    casilla := .RETEFUENTE, naturaleza := .C
    porcentaje := none, modo_calculo := none }

/-- A catalog index holding only `entradaSinPorcentaje`. -/
def catalogoSinPorcentaje : Catalogos :=
  { porClave := fun pid cas =>
      if pid = 5 ∧ cas = Casilla.RETEFUENTE then [entradaSinPorcentaje] else []
    porId := fun i => if i = 4 then some entradaSinPorcentaje else none }

/-- A row of provider `5` choosing `entradaSinPorcentaje` for the
income-withholding slot. -/
def filaSinPorcentaje : Fila :=
  { filaVacia with
    proveedor_id := some 5
    cuentas := ⟨none, none, none, some (.id 4), none, none, none⟩ }

/-! Theorems settling the claims, with their supporting lemmas. -/

/-- C2: for every base amount (negative bases included) and every catalog
entry, `calcular_retencion` returns the entry's percentage (exactly `0` when
the entry carries none) paired with `base * percentage / 1000` in per-mille
mode and `base * percentage / 100` in percentage mode or when the mode is
unset.  The arithmetic is exact rational arithmetic, with no rounding. -/
theorem calcular_retencion_spec (base : ℚ) (catalogo : CuentaContableProveedor) :
    (catalogo.porcentaje = none → (calcular_retencion base catalogo).1 = 0) ∧
    (∀ p : ℚ, catalogo.porcentaje = some p → (calcular_retencion base catalogo).1 = p) ∧
    (catalogo.modo_calculo = some ModoCalculo.PORMIL →
      calcular_retencion base catalogo =
        ((calcular_retencion base catalogo).1,
          base * (calcular_retencion base catalogo).1 / 1000)) ∧
    (catalogo.modo_calculo ≠ some ModoCalculo.PORMIL →
      calcular_retencion base catalogo =
        ((calcular_retencion base catalogo).1,
          base * (calcular_retencion base catalogo).1 / 100)) := by
  refine ⟨?_, ?_, ?_, ?_⟩
  · intro h
    simp [calcular_retencion, h]
  · intro p h
    rcases catalogo.modo_calculo.getD ModoCalculo.PORCENTAJE with _ | _ <;>
      simp [calcular_retencion, h] <;> split <;> rfl
  · intro h
    simp [calcular_retencion, h]
  · intro h
    have hmodo : catalogo.modo_calculo.getD ModoCalculo.PORCENTAJE ≠ ModoCalculo.PORMIL := by
      rcases hmc : catalogo.modo_calculo with _ | m
      · simp [hmc]
      · rcases m with _ | _
        · simp [hmc]
        · exact absurd hmc h
    simp [calcular_retencion, hmodo]

/-- C2 witness: `calcular_retencion` evaluated at a concrete per-mille entry
with a negative base. -/
theorem calcular_retencion_spec_witness :
    ((⟨(-7 : ℚ), 21/2⟩ : ℚ × ℚ).2 = (-7) * (3/2) / 1000 → True) ∧
    (calcular_retencion (-7)
        { id := 1, proveedor_id := 1
          cuenta := { codigo := "2368001000", descripcion := "" }
          casilla := .RETEICA, naturaleza := .C
          porcentaje := some (3/2), modo_calculo := some .PORMIL } =
      ((calcular_retencion (-7)
          { id := 1, proveedor_id := 1
            cuenta := { codigo := "2368001000", descripcion := "" }
            casilla := .RETEICA, naturaleza := .C
            porcentaje := some (3/2), modo_calculo := some .PORMIL }).1,
        (-7) * (calcular_retencion (-7)
          { id := 1, proveedor_id := 1
            cuenta := { codigo := "2368001000", descripcion := "" }
            casilla := .RETEICA, naturaleza := .C
            porcentaje := some (3/2), modo_calculo := some .PORMIL }).1 / 1000)) ∧
    (calcular_retencion (-7)
        { id := 1, proveedor_id := 1
          cuenta := { codigo := "2368001000", descripcion := "" }
          casilla := .RETEICA, naturaleza := .C
          porcentaje := some (3/2), modo_calculo := some .PORMIL }).1 = 3/2 := by
  refine ⟨fun _ => trivial, ?_, ?_⟩
  · exact (calcular_retencion_spec (-7) _).2.2.1 rfl
  · exact (calcular_retencion_spec (-7) _).2.1 (3/2) rfl

/-- C3: the INC-exclusive account code `231053152007` is accepted by
`validar_prefijo_para_casilla` for the `INC` slot and rejected for every
other slot with the INC-exclusivity message.  That message differs from the
generic slot message, which shows the exclusivity rule fires before the
`excluir` set of `SUBTOTAL` (which also lists this code) and before the
prefix-family check (the code even starts with `SUBTOTAL`'s prefix
`"2310"`). -/
theorem validar_prefijo_inc_exclusiva :
    validar_prefijo_para_casilla .INC "231053152007" = none ∧
    (∀ casilla ∈ CASILLAS, casilla ≠ Casilla.INC →
      validar_prefijo_para_casilla casilla "231053152007" = some MSG_EXCLUSIVA_INC) ∧
    MSG_EXCLUSIVA_INC ≠ CASILLA_ERROR_MSG ∧
    py_startswith "231053152007" "2310" = true := by
  refine ⟨by decide, ?_, by decide, by decide⟩
  intro casilla _ hne
  cases casilla <;> first
    | exact absurd rfl hne
    | decide

/-- C3 witness: the theorem applied to the `SUBTOTAL` slot. -/
theorem validar_prefijo_inc_exclusiva_witness :
    validar_prefijo_para_casilla .SUBTOTAL "231053152007" = some MSG_EXCLUSIVA_INC :=
  validar_prefijo_inc_exclusiva.2.1 .SUBTOTAL (by decide) (by decide)


/-- C1: for every row processed by the engine, the net-total slot's value
and amount, and the row's reported derived net total, all equal
`subtotal + IVA + INC` minus the three withholding accumulators of that row;
and replacing the raw `total_neto` amount of the request changes none of
them — the user-supplied net total never appears as the slot's value. -/
theorem total_neto_siempre_derivado (cat : Catalogos) (indice : ℕ) (fila : Fila) :
    ((procesar_fila cat indice fila).2.casillas .TOTAL_NETO).valor =
      some (procesar_fila cat indice fila).2.total_neto ∧
    ((procesar_fila cat indice fila).2.casillas .TOTAL_NETO).monto =
      (procesar_fila cat indice fila).2.total_neto ∧
    (procesar_fila cat indice fila).2.total_neto =
      (procesar_fila cat indice fila).2.subtotal + (procesar_fila cat indice fila).2.iva +
        (procesar_fila cat indice fila).2.inc - (procesar_fila cat indice fila).2.retefuente -
        (procesar_fila cat indice fila).2.reteica - (procesar_fila cat indice fila).2.reteiva ∧
    ∀ s : Option String,
      ((procesar_fila cat indice
            { fila with importes := { fila.importes with total_neto := s } }).2.casillas
          .TOTAL_NETO).valor = some (procesar_fila cat indice fila).2.total_neto ∧
      (procesar_fila cat indice
          { fila with importes := { fila.importes with total_neto := s } }).2.total_neto =
        (procesar_fila cat indice fila).2.total_neto := by
  exact ⟨rfl, rfl, rfl, fun s => ⟨rfl, rfl⟩⟩

theorem mensaje_validar_prefijo {c : Casilla} {cod : String} {m : String}
    (h : validar_prefijo_para_casilla c cod = some m) :
    m = MSG_EXCLUSIVA_INC ∨ m = CASILLA_ERROR_MSG := by
  unfold validar_prefijo_para_casilla at h
  repeat' split at h
  all_goals try simp_all
  split at h
  all_goals simp_all

theorem campo_errores_monto {i : ℕ} {fila : Fila} {c : Casilla} {campo : String}
    {monto : ℚ} {opciones : List CuentaContableProveedor} {cid : Option CuentaInput} :
    ∀ e ∈ errores_monto i fila c campo monto opciones cid,
      e.campo = some campo ∧
      (e.mensaje = (CASILLA_RULES c).mensaje_sin_opciones ∨ e.mensaje = CAMPO_OBLIGATORIO_MSG) := by
  intro e he
  unfold errores_monto at he
  split_ifs at he <;> simp_all

theorem campo_resolver {cat : Catalogos} {i : ℕ} {fila : Fila} {c : Casilla}
    {campo : String} {cid : Option CuentaInput} :
    ∀ e ∈ (resolver_cuenta cat i fila c campo cid).2.2,
      e.campo = some campo ∧
      (e.mensaje = CUENTA_PROVEEDOR_MSG ∨ e.mensaje = CASILLA_ERROR_MSG ∨
        e.mensaje = MSG_EXCLUSIVA_INC ∨ e.mensaje = NATURALEZA_ERROR_MSG) := by
  intro e he
  simp only [resolver_cuenta] at he
  repeat' split at he
  all_goals (try simp_all)
  all_goals
    (rename_i m hm
     rcases mensaje_validar_prefijo hm with rfl | rfl <;> simp_all)

theorem campo_aplicar_retencion {i : ℕ} {fila : Fila} {c : Casilla} {campo : String}
    {s monto : ℚ} {pin : Option ℚ} {cv : Option CuentaContableProveedor}
    {info0 : CasillaInfo} {acc : Retenciones} :
    ∀ e ∈ (aplicar_retencion i fila c campo s monto pin cv info0 acc).2.1,
      e.campo = some campo ∧ e.mensaje = (CASILLA_RULES c).mensaje_sin_opciones := by
  intro e he
  unfold aplicar_retencion at he
  repeat' split at he
  all_goals simp_all

theorem campo_aplicar_total_neto {i : ℕ} {fila : Fila} {c : Casilla} {campo : String}
    {s v n : ℚ} {cid : Option CuentaInput} {info1 : CasillaInfo} {acc1 : Retenciones} :
    ∀ e ∈ (aplicar_total_neto i fila c campo s v n cid info1 acc1).2,
      e.campo = some campo ∧ e.mensaje = CAMPO_OBLIGATORIO_MSG := by
  intro e he
  unfold aplicar_total_neto at he
  repeat' split at he
  all_goals simp_all

theorem errores_monto_eq_nil {i : ℕ} {fila : Fila} {c : Casilla} {campo : String}
    {monto : ℚ} {opciones : List CuentaContableProveedor} {cid : Option CuentaInput}
    (h : monto = 0) : errores_monto i fila c campo monto opciones cid = [] := by
  unfold errores_monto
  simp [h]

theorem total_neto_nil_de_cero {i : ℕ} {fila : Fila} {c : Casilla} {campo : String}
    {s v n : ℚ} {cid : Option CuentaInput} {info1 : CasillaInfo} {acc1 : Retenciones}
    (h : s + v + n - acc1.retefuente_val - acc1.reteica_val - acc1.reteiva_val = 0) :
    (aplicar_total_neto i fila c campo s v n cid info1 acc1).2 = [] := by
  unfold aplicar_total_neto
  split <;> simp [h]

theorem total_neto_nil_de_casilla {i : ℕ} {fila : Fila} {c : Casilla} {campo : String}
    {s v n : ℚ} {cid : Option CuentaInput} {info1 : CasillaInfo} {acc1 : Retenciones}
    (h : c ≠ Casilla.TOTAL_NETO) :
    (aplicar_total_neto i fila c campo s v n cid info1 acc1).2 = [] := by
  unfold aplicar_total_neto
  simp [h]

theorem campo_procesar_casilla {cat : Catalogos} {i : ℕ} {fila : Fila}
    {s v n : ℚ} {acc : Retenciones} {c : Casilla} :
    ∀ e ∈ (procesar_casilla cat i fila s v n acc c).2.1,
      e.campo = some (CASILLA_FIELD_MAP c) := by
  intro e he
  simp only [procesar_casilla, List.mem_append] at he
  rcases he with ((he | he) | he) | he
  · exact (campo_errores_monto e he).1
  · exact (campo_resolver e he).1
  · exact (campo_aplicar_retencion e he).1
  · exact (campo_aplicar_total_neto e he).1

theorem mensajes_distintos :
    ∀ c : Casilla,
      (CASILLA_RULES c).mensaje_sin_opciones ≠ CAMPO_OBLIGATORIO_MSG ∧
      CUENTA_PROVEEDOR_MSG ≠ CAMPO_OBLIGATORIO_MSG ∧
      CASILLA_ERROR_MSG ≠ CAMPO_OBLIGATORIO_MSG ∧
      MSG_EXCLUSIVA_INC ≠ CAMPO_OBLIGATORIO_MSG ∧
      NATURALEZA_ERROR_MSG ≠ CAMPO_OBLIGATORIO_MSG := by
  intro c
  cases c <;> exact ⟨by decide, by decide, by decide, by decide, by decide⟩

theorem sin_obligatorio_procesar_casilla {cat : Catalogos} {i : ℕ} {fila : Fila}
    {s v n : ℚ} {acc : Retenciones} {c : Casilla}
    (hc : c ≠ Casilla.TOTAL_NETO)
    (hm : _parse_decimal (importeOf fila c) 0 = 0) :
    ∀ e ∈ (procesar_casilla cat i fila s v n acc c).2.1,
      e.mensaje ≠ CAMPO_OBLIGATORIO_MSG := by
  intro e he
  simp only [procesar_casilla, List.mem_append] at he
  rw [errores_monto_eq_nil hm, total_neto_nil_de_casilla hc] at he
  rcases he with ((he | he) | he) | he
  · simp at he
  · rcases (campo_resolver e he).2 with h | h | h | h <;> rw [h]
    · exact (mensajes_distintos c).2.1
    · exact (mensajes_distintos c).2.2.1
    · exact (mensajes_distintos c).2.2.2.1
    · exact (mensajes_distintos c).2.2.2.2
  · rw [(campo_aplicar_retencion e he).2]
    exact (mensajes_distintos c).1
  · simp at he

theorem sin_obligatorio_total_neto_casilla {cat : Catalogos} {i : ℕ} {fila : Fila}
    {s v n : ℚ} {acc : Retenciones}
    (hm : _parse_decimal (importeOf fila .TOTAL_NETO) 0 = 0)
    (ht : s + v + n - (procesar_casilla cat i fila s v n acc .TOTAL_NETO).2.2.retefuente_val -
        (procesar_casilla cat i fila s v n acc .TOTAL_NETO).2.2.reteica_val -
        (procesar_casilla cat i fila s v n acc .TOTAL_NETO).2.2.reteiva_val = 0) :
    ∀ e ∈ (procesar_casilla cat i fila s v n acc .TOTAL_NETO).2.1,
      e.mensaje ≠ CAMPO_OBLIGATORIO_MSG := by
  intro e he
  simp only [procesar_casilla, List.mem_append] at he
  rw [errores_monto_eq_nil hm] at he
  rw [total_neto_nil_de_cero (by exact ht)] at he
  rcases he with ((he | he) | he) | he
  · simp at he
  · rcases (campo_resolver e he).2 with h | h | h | h <;> rw [h]
    · exact (mensajes_distintos .TOTAL_NETO).2.1
    · exact (mensajes_distintos .TOTAL_NETO).2.2.1
    · exact (mensajes_distintos .TOTAL_NETO).2.2.2.1
    · exact (mensajes_distintos .TOTAL_NETO).2.2.2.2
  · rw [(campo_aplicar_retencion e he).2]
    exact (mensajes_distintos .TOTAL_NETO).1
  · simp at he



theorem campo_map_inj : ∀ a b : Casilla, CASILLA_FIELD_MAP a = CASILLA_FIELD_MAP b → a = b := by
  intro a b
  cases a <;> cases b <;> decide

theorem any_obligatorio_false_slot {cat : Catalogos} {i : ℕ} {fila : Fila}
    {s v n : ℚ} {acc : Retenciones} {c ci : Casilla}
    (hcase : ci ≠ c ∨ (c ≠ Casilla.TOTAL_NETO ∧ _parse_decimal (importeOf fila c) 0 = 0)) :
    ((procesar_casilla cat i fila s v n acc ci).2.1.any
      (fun e => e.campo == some (CASILLA_FIELD_MAP c) && e.mensaje == CAMPO_OBLIGATORIO_MSG)) =
      false := by
  rw [List.any_eq_false]
  intro e he
  by_cases hcic : ci = c
  · subst hcic
    rcases hcase with hne | ⟨hc, hm⟩
    · exact absurd rfl hne
    · have hmsg := sin_obligatorio_procesar_casilla hc hm e he
      simp [hmsg]
  · have hcampo := campo_procesar_casilla e he
    have hfield : CASILLA_FIELD_MAP ci ≠ CASILLA_FIELD_MAP c :=
      fun hh => hcic (campo_map_inj _ _ hh)
    simp [hcampo, hfield]

theorem any_obligatorio_false_total_neto {cat : Catalogos} {i : ℕ} {fila : Fila}
    {s v n : ℚ} {acc : Retenciones}
    (hm : _parse_decimal (importeOf fila .TOTAL_NETO) 0 = 0)
    (ht : s + v + n - (procesar_casilla cat i fila s v n acc .TOTAL_NETO).2.2.retefuente_val -
        (procesar_casilla cat i fila s v n acc .TOTAL_NETO).2.2.reteica_val -
        (procesar_casilla cat i fila s v n acc .TOTAL_NETO).2.2.reteiva_val = 0) :
    ((procesar_casilla cat i fila s v n acc .TOTAL_NETO).2.1.any
      (fun e => e.campo == some (CASILLA_FIELD_MAP .TOTAL_NETO) &&
        e.mensaje == CAMPO_OBLIGATORIO_MSG)) = false := by
  rw [List.any_eq_false]
  intro e he
  have hmsg := sin_obligatorio_total_neto_casilla hm ht e he
  simp [hmsg]

/-- C4 (amended): for every slot other than the net-total slot, an amount
that parses to exactly zero suppresses the "account is required" finding for
that slot, whatever account was or was not chosen; for the net-total slot
the check runs on the derived net total instead, so the finding is absent
whenever both the supplied amount parses to zero and the derived net total
is zero. -/
theorem sin_obligatorio_con_monto_cero :
    (∀ (cat : Catalogos) (i : ℕ) (fila : Fila) (c : Casilla),
        c ≠ Casilla.TOTAL_NETO →
        _parse_decimal (importeOf fila c) 0 = 0 →
        tieneObligatorio (procesar_fila cat i fila).1 (CASILLA_FIELD_MAP c) = false) ∧
    (∀ (cat : Catalogos) (i : ℕ) (fila : Fila),
        _parse_decimal (importeOf fila .TOTAL_NETO) 0 = 0 →
        (procesar_fila cat i fila).2.total_neto = 0 →
        tieneObligatorio (procesar_fila cat i fila).1 (CASILLA_FIELD_MAP .TOTAL_NETO) = false) := by
  constructor
  · intro cat i fila c hc hm
    simp only [procesar_fila, tieneObligatorio, List.any_append, Bool.or_eq_false_iff]
    refine ⟨⟨⟨⟨⟨⟨?_, ?_⟩, ?_⟩, ?_⟩, ?_⟩, ?_⟩, ?_⟩ <;>
      exact any_obligatorio_false_slot (Or.inr ⟨hc, hm⟩)
  · intro cat i fila hm ht
    simp only [procesar_fila] at ht
    simp only [procesar_fila, tieneObligatorio, List.any_append, Bool.or_eq_false_iff]
    refine ⟨⟨⟨⟨⟨⟨?_, ?_⟩, ?_⟩, ?_⟩, ?_⟩, ?_⟩, ?_⟩
    · exact any_obligatorio_false_slot (Or.inl (by decide))
    · exact any_obligatorio_false_slot (Or.inl (by decide))
    · exact any_obligatorio_false_slot (Or.inl (by decide))
    · exact any_obligatorio_false_slot (Or.inl (by decide))
    · exact any_obligatorio_false_slot (Or.inl (by decide))
    · exact any_obligatorio_false_slot (Or.inl (by decide))
    · exact any_obligatorio_false_total_neto hm ht

/-- C4 counterexample: with subtotal `100` and a supplied net total of
`"0"` (which parses to zero) and no account chosen, the engine still emits
the "account is required" finding for the net-total slot, because the check
runs on the derived net total `100`. -/
theorem obligatorio_total_neto_contraejemplo :
    _parse_decimal (importeOf filaC4 .TOTAL_NETO) 0 = 0 ∧
    tieneObligatorio (procesar_fila catalogosVacios 0 filaC4).1 "total_neto" = true := by
  constructor
  · with_unfolding_all rfl
  · with_unfolding_all rfl

/-- C4 witness: the amended theorem applied to the empty row, whose
subtotal parses to zero and whose derived net total is zero. -/
theorem sin_obligatorio_con_monto_cero_witness :
    _parse_decimal (importeOf filaVacia .SUBTOTAL) 0 = 0 ∧
    tieneObligatorio (procesar_fila catalogosVacios 0 filaVacia).1
      (CASILLA_FIELD_MAP .SUBTOTAL) = false ∧
    (procesar_fila catalogosVacios 0 filaVacia).2.total_neto = 0 ∧
    tieneObligatorio (procesar_fila catalogosVacios 0 filaVacia).1
      (CASILLA_FIELD_MAP .TOTAL_NETO) = false := by
  refine ⟨by with_unfolding_all rfl, ?_, by with_unfolding_all rfl, ?_⟩
  · exact sin_obligatorio_con_monto_cero.1 catalogosVacios 0 filaVacia .SUBTOTAL
      (by decide) (by with_unfolding_all rfl)
  · exact sin_obligatorio_con_monto_cero.2 catalogosVacios 0 filaVacia
      (by with_unfolding_all rfl) (by with_unfolding_all rfl)


theorem length_filterMap_toFila {items : List RowItem}
    (h : items.all RowItem.esObj = true) :
    (items.filterMap RowItem.toFila).length = items.length := by
  induction items with
  | nil => rfl
  | cons a t ih =>
      cases a <;> simp_all [RowItem.toFila, RowItem.esObj]

theorem resolver_cuenta_id_desconocido {cat : Catalogos} {i : ℕ} {fila : Fila}
    {c : Casilla} {campo : String} {cid : Option CuentaInput} {nid : ℤ}
    (h1 : cid = some (.id nid)) (h2 : cat.porId nid = none) :
    resolver_cuenta cat i fila c campo cid =
      (none, false, [⟨some i, fila.factura_id, some campo, CUENTA_PROVEEDOR_MSG⟩]) := by
  subst h1
  unfold resolver_cuenta
  simp [esVaciaCuenta, h2]

theorem catalogo_aplicar_retencion {i : ℕ} {fila : Fila} {c : Casilla} {campo : String}
    {s monto : ℚ} {pin : Option ℚ} {cv : Option CuentaContableProveedor}
    {info0 : CasillaInfo} {acc : Retenciones} :
    (aplicar_retencion i fila c campo s monto pin cv info0 acc).1.catalogo =
      info0.catalogo := by
  unfold aplicar_retencion
  repeat' split
  all_goals rfl

theorem catalogo_aplicar_total_neto {i : ℕ} {fila : Fila} {c : Casilla} {campo : String}
    {s v n : ℚ} {cid : Option CuentaInput} {info1 : CasillaInfo} {acc1 : Retenciones} :
    (aplicar_total_neto i fila c campo s v n cid info1 acc1).1.catalogo =
      info1.catalogo := by
  unfold aplicar_total_neto
  repeat' split
  all_goals rfl

theorem error_resolucion_en_casilla {cat : Catalogos} {i : ℕ} {fila : Fila}
    {s v n : ℚ} {acc : Retenciones} {c : Casilla} {nid : ℤ}
    (h1 : cuentaOf fila c = some (.id nid)) (h2 : cat.porId nid = none) :
    ((procesar_casilla cat i fila s v n acc c).1).catalogo = none ∧
    (⟨some i, fila.factura_id, some (CASILLA_FIELD_MAP c), CUENTA_PROVEEDOR_MSG⟩ : ErrorLiq) ∈
      (procesar_casilla cat i fila s v n acc c).2.1 := by
  have hres := @resolver_cuenta_id_desconocido cat i fila c (CASILLA_FIELD_MAP c)
    (cuentaOf fila c) nid h1 h2
  constructor
  · simp only [procesar_casilla]
    rw [catalogo_aplicar_total_neto, catalogo_aplicar_retencion, hres]
    rfl
  · simp only [procesar_casilla, List.mem_append]
    rw [hres]
    simp

theorem parse_decimal_falla_a_default {s : String}
    (h : pyDecimalOfChars (separar_decimales (removeChar '$' (stripEnds s.data))) = none) :
    _parse_decimal (some s) 0 = 0 := by
  unfold _parse_decimal
  split
  · rfl
  next v hv =>
    cases hv
    dsimp only
    split
    · rfl
    · rw [h]



theorem fallo_resolucion_fila {cat : Catalogos} {i : ℕ} {fila : Fila} {c : Casilla} {nid : ℤ}
    (h1 : cuentaOf fila c = some (.id nid)) (h2 : cat.porId nid = none) :
    ((procesar_fila cat i fila).2.casillas c).catalogo = none ∧
    (⟨some i, fila.factura_id, some (CASILLA_FIELD_MAP c), CUENTA_PROVEEDOR_MSG⟩ : ErrorLiq) ∈
      (procesar_fila cat i fila).1 := by
  cases c with
  | SUBTOTAL =>
      refine ⟨?_, ?_⟩ <;> simp only [procesar_fila, List.mem_append]
      · exact (error_resolucion_en_casilla h1 h2).1
      · exact Or.inl (Or.inl (Or.inl (Or.inl (Or.inl (Or.inl
          (error_resolucion_en_casilla h1 h2).2)))))
  | IVA =>
      refine ⟨?_, ?_⟩ <;> simp only [procesar_fila, List.mem_append]
      · exact (error_resolucion_en_casilla h1 h2).1
      · exact Or.inl (Or.inl (Or.inl (Or.inl (Or.inl (Or.inr
          (error_resolucion_en_casilla h1 h2).2)))))
  | INC =>
      refine ⟨?_, ?_⟩ <;> simp only [procesar_fila, List.mem_append]
      · exact (error_resolucion_en_casilla h1 h2).1
      · exact Or.inl (Or.inl (Or.inl (Or.inl (Or.inr
          (error_resolucion_en_casilla h1 h2).2))))
  | RETEFUENTE =>
      refine ⟨?_, ?_⟩ <;> simp only [procesar_fila, List.mem_append]
      · exact (error_resolucion_en_casilla h1 h2).1
      · exact Or.inl (Or.inl (Or.inl (Or.inr
          (error_resolucion_en_casilla h1 h2).2)))
  | RETEICA =>
      refine ⟨?_, ?_⟩ <;> simp only [procesar_fila, List.mem_append]
      · exact (error_resolucion_en_casilla h1 h2).1
      · exact Or.inl (Or.inl (Or.inr (error_resolucion_en_casilla h1 h2).2))
  | RETEIVA =>
      refine ⟨?_, ?_⟩ <;> simp only [procesar_fila, List.mem_append]
      · exact (error_resolucion_en_casilla h1 h2).1
      · exact Or.inl (Or.inr (error_resolucion_en_casilla h1 h2).2)
  | TOTAL_NETO =>
      refine ⟨?_, ?_⟩ <;> simp only [procesar_fila, List.mem_append]
      · exact (error_resolucion_en_casilla h1 h2).1
      · exact Or.inr (error_resolucion_en_casilla h1 h2).2

/-- C5 (amended): a non-list request yields exactly the single top-level
"Formato inválido." finding with an empty result list; a list of row objects
is always answered with one result row per request row; an amount whose
cleaned text fails to parse degrades to zero; and an account id that is not
in the catalog index leaves the slot unresolved (`catalogo = none`) and adds
the account-ownership finding while the row keeps processing.  However a
list containing a non-object element makes the validator raise an uncaught
`AttributeError` instead of degrading. -/
theorem validar_filas_degradacion :
    (∀ cat : Catalogos,
        _validar_filas_liquidacion cat .notList =
          .ok ([⟨none, none, none, "Formato inválido."⟩], [])) ∧
    (∀ (cat : Catalogos) (items : List RowItem),
        items.all RowItem.esObj = true →
        ∃ out, _validar_filas_liquidacion cat (.list items) = .ok out ∧
          out.2.length = items.length) ∧
    (∀ s : String,
        pyDecimalOfChars (separar_decimales (removeChar '$' (stripEnds s.data))) = none →
        _parse_decimal (some s) 0 = 0) ∧
    (∀ (cat : Catalogos) (i : ℕ) (fila : Fila) (c : Casilla) (nid : ℤ),
        cuentaOf fila c = some (.id nid) →
        cat.porId nid = none →
        ((procesar_fila cat i fila).2.casillas c).catalogo = none ∧
        (⟨some i, fila.factura_id, some (CASILLA_FIELD_MAP c), CUENTA_PROVEEDOR_MSG⟩ : ErrorLiq) ∈
          (procesar_fila cat i fila).1) := by
  refine ⟨fun cat => rfl, ?_, ?_, ?_⟩
  · intro cat items h
    simp only [_validar_filas_liquidacion]
    rw [if_pos h]
    refine ⟨_, rfl, ?_⟩
    simp [length_filterMap_toFila h]
  · intro s h
    exact parse_decimal_falla_a_default h
  · intro cat i fila c nid h1 h2
    exact fallo_resolucion_fila h1 h2

/-- C5 counterexample: a list whose element is not a row object raises
(modelled as `Except.error`), against the claim that the validator never
raises for malformed input. -/
theorem validar_filas_eleva_en_lista_no_objetos :
    _validar_filas_liquidacion catalogosVacios (.list [.nonObj]) = .error () := rfl

/-- C5 witness: the amended theorem at concrete inputs — the empty catalog
with a non-list payload, a one-object list, the unparseable amount
`"abc"`, and a row choosing the unknown account id `99`. -/
theorem validar_filas_degradacion_witness :
    _validar_filas_liquidacion catalogosVacios .notList =
      .ok ([⟨none, none, none, "Formato inválido."⟩], []) ∧
    (∃ out, _validar_filas_liquidacion catalogosVacios (.list [.obj filaVacia]) = .ok out ∧
      out.2.length = [RowItem.obj filaVacia].length) ∧
    _parse_decimal (some "abc") 0 = 0 ∧
    ((procesar_fila catalogosVacios 0 filaCuentaDesconocida).2.casillas .SUBTOTAL).catalogo =
      none ∧
    (⟨some 0, none, some "subtotal", CUENTA_PROVEEDOR_MSG⟩ : ErrorLiq) ∈
      (procesar_fila catalogosVacios 0 filaCuentaDesconocida).1 := by
  refine ⟨validar_filas_degradacion.1 catalogosVacios,
    validar_filas_degradacion.2.1 catalogosVacios [RowItem.obj filaVacia] (by decide),
    validar_filas_degradacion.2.2.1 "abc" (by with_unfolding_all rfl), ?_, ?_⟩
  · exact (validar_filas_degradacion.2.2.2 catalogosVacios 0 filaCuentaDesconocida
      .SUBTOTAL 99 rfl rfl).1
  · exact (validar_filas_degradacion.2.2.2 catalogosVacios 0 filaCuentaDesconocida
      .SUBTOTAL 99 rfl rfl).2

/-- C6: evaluating the export at the failing input.  A slot with no chosen
account exports the empty string as its account column, not the "N/A"
placeholder that the spec (and the repository's own tests, e.g.
`test_exporta_csv_campo_vacio_generar_na`) require. -/
theorem exportar_cuenta_vacia_no_na :
    obtener_cuenta ((procesar_fila catalogosVacios 0 filaVacia).2.casillas .INC) = "" ∧
    (exportar_fila (procesar_fila catalogosVacios 0 filaVacia).2).inc_cuenta = "" ∧
    ("" : String) ≠ "N/A" := by
  refine ⟨by with_unfolding_all rfl, by with_unfolding_all rfl, by decide⟩


theorem resolver_valido_naturaleza {cat : Catalogos} {i : ℕ} {fila : Fila} {c : Casilla}
    {campo : String} {cid : Option CuentaInput} {cc : CuentaContableProveedor}
    (h1 : (resolver_cuenta cat i fila c campo cid).1 = some cc)
    (h2 : (resolver_cuenta cat i fila c campo cid).2.1 = true) :
    cc.naturaleza = (CASILLA_RULES c).naturaleza := by
  simp only [resolver_cuenta] at h1 h2
  split_ifs at h1 h2
  all_goals try simp_all
  all_goals
    (repeat' split at h2
     all_goals simp_all)

theorem naturaleza_aplicar_retencion {i : ℕ} {fila : Fila} {c : Casilla} {campo : String}
    {s monto : ℚ} {pin : Option ℚ} {cv : Option CuentaContableProveedor}
    {info0 : CasillaInfo} {acc : Retenciones} :
    (aplicar_retencion i fila c campo s monto pin cv info0 acc).1.naturaleza =
      info0.naturaleza := by
  unfold aplicar_retencion
  repeat' split
  all_goals rfl

theorem naturaleza_aplicar_total_neto {i : ℕ} {fila : Fila} {c : Casilla} {campo : String}
    {s v n : ℚ} {cid : Option CuentaInput} {info1 : CasillaInfo} {acc1 : Retenciones} :
    (aplicar_total_neto i fila c campo s v n cid info1 acc1).1.naturaleza =
      info1.naturaleza := by
  unfold aplicar_total_neto
  repeat' split
  all_goals rfl

theorem naturaleza_procesar_casilla {cat : Catalogos} {i : ℕ} {fila : Fila}
    {s v n : ℚ} {acc : Retenciones} {c : Casilla} :
    ((procesar_casilla cat i fila s v n acc c).1).naturaleza =
      (CASILLA_RULES c).naturaleza := by
  simp only [procesar_casilla]
  rw [naturaleza_aplicar_total_neto, naturaleza_aplicar_retencion]
  unfold info_inicial
  dsimp only
  split
  next cc heq =>
    by_cases hv : (resolver_cuenta cat i fila c (CASILLA_FIELD_MAP c) (cuentaOf fila c)).2.1 = true
    · rw [if_pos hv] at heq
      exact resolver_valido_naturaleza heq hv
    · rw [if_neg hv] at heq
      cases heq
  next => rfl



/-- C7: every withholding slot outcome carries Credit nature, its exported
value column is the slot's effective value multiplied by the nature-to-sign
convention (Debit maps to 1, Credit to -1, so Credit values are negated),
and the raw amount columns (Sub total, IVA, INC, Total neto) are rendered
from their values with no sign factor. -/
theorem exportar_retenciones_con_signo :
    ∀ (cat : Catalogos) (i : ℕ) (fila : Fila) (c : Casilla),
      esRetencion c = true →
      ((procesar_fila cat i fila).2.casillas c).naturaleza = Naturaleza.C ∧
      obtener_monto ((procesar_fila cat i fila).2.casillas c) =
        (((procesar_fila cat i fila).2.casillas c).valor.getD
          ((procesar_fila cat i fila).2.casillas c).monto) *
          signo_por_naturaleza Naturaleza.C ∧
      signo_por_naturaleza Naturaleza.C = -1 ∧
      signo_por_naturaleza Naturaleza.D = 1 ∧
      (exportar_fila (procesar_fila cat i fila).2).retefuente_valor =
        _decimal_to_str (obtener_monto ((procesar_fila cat i fila).2.casillas .RETEFUENTE)) 2 ∧
      (exportar_fila (procesar_fila cat i fila).2).reteica_valor =
        _decimal_to_str (obtener_monto ((procesar_fila cat i fila).2.casillas .RETEICA)) 2 ∧
      (exportar_fila (procesar_fila cat i fila).2).reteiva_valor =
        _decimal_to_str (obtener_monto ((procesar_fila cat i fila).2.casillas .RETEIVA)) 2 ∧
      (exportar_fila (procesar_fila cat i fila).2).sub_total =
        _decimal_to_str_opt ((procesar_fila cat i fila).2.casillas .SUBTOTAL).valor 2 ∧
      (exportar_fila (procesar_fila cat i fila).2).iva =
        _decimal_to_str_opt ((procesar_fila cat i fila).2.casillas .IVA).valor 2 ∧
      (exportar_fila (procesar_fila cat i fila).2).inc =
        _decimal_to_str_opt ((procesar_fila cat i fila).2.casillas .INC).valor 2 ∧
      (exportar_fila (procesar_fila cat i fila).2).total_neto =
        _decimal_to_str (procesar_fila cat i fila).2.total_neto 2 := by
  intro cat i fila c hr
  have hnat : ((procesar_fila cat i fila).2.casillas c).naturaleza = Naturaleza.C := by
    cases c with
    | RETEFUENTE =>
        simp only [procesar_fila]
        rw [naturaleza_procesar_casilla]; rfl
    | RETEICA =>
        simp only [procesar_fila]
        rw [naturaleza_procesar_casilla]; rfl
    | RETEIVA =>
        simp only [procesar_fila]
        rw [naturaleza_procesar_casilla]; rfl
    | SUBTOTAL => exact absurd hr (by decide)
    | IVA => exact absurd hr (by decide)
    | INC => exact absurd hr (by decide)
    | TOTAL_NETO => exact absurd hr (by decide)
  refine ⟨hnat, ?_, rfl, rfl, rfl, rfl, rfl, rfl, rfl, rfl, rfl⟩
  unfold obtener_monto
  rw [hnat]
  cases ((procesar_fila cat i fila).2.casillas c).valor <;> rfl

/-- C7 witness: the theorem at the income-withholding slot of the empty row
over the empty catalog. -/
theorem exportar_retenciones_con_signo_witness :
    esRetencion Casilla.RETEFUENTE = true ∧
    ((procesar_fila catalogosVacios 0 filaVacia).2.casillas .RETEFUENTE).naturaleza =
      Naturaleza.C ∧
    obtener_monto ((procesar_fila catalogosVacios 0 filaVacia).2.casillas .RETEFUENTE) =
      (((procesar_fila catalogosVacios 0 filaVacia).2.casillas .RETEFUENTE).valor.getD
        ((procesar_fila catalogosVacios 0 filaVacia).2.casillas .RETEFUENTE).monto) *
        signo_por_naturaleza Naturaleza.C := by
  have h := exportar_retenciones_con_signo catalogosVacios 0 filaVacia .RETEFUENTE (by decide)
  exact ⟨by decide, h.1, h.2.1⟩



theorem resolver_cuenta_valido {cat : Catalogos} {i : ℕ} {fila : Fila} {c : Casilla}
    {campo : String} {cid : Option CuentaInput} {nid : ℤ} {cc : CuentaContableProveedor}
    (h1 : cid = some (.id nid)) (h2 : cat.porId nid = some cc)
    (h3 : fila.proveedor_id = some cc.proveedor_id)
    (h4 : cc.casilla = c)
    (h5 : validar_prefijo_para_casilla c cc.cuenta.codigo = none)
    (h6 : cc.naturaleza = (CASILLA_RULES c).naturaleza) :
    resolver_cuenta cat i fila c campo cid = (some cc, true, []) := by
  subst h1
  unfold resolver_cuenta
  simp [esVaciaCuenta, h2, h3, h4, h5, h6]

theorem setRetencion_retefuente {acc : Retenciones} {c : Casilla} {x : ℚ}
    (hc : c ≠ Casilla.RETEFUENTE) :
    (setRetencion acc c x).retefuente_val = acc.retefuente_val := by
  unfold setRetencion
  cases c <;> simp_all

theorem setRetencion_reteica {acc : Retenciones} {c : Casilla} {x : ℚ}
    (hc : c ≠ Casilla.RETEICA) :
    (setRetencion acc c x).reteica_val = acc.reteica_val := by
  unfold setRetencion
  cases c <;> simp_all

theorem setRetencion_reteiva {acc : Retenciones} {c : Casilla} {x : ℚ}
    (hc : c ≠ Casilla.RETEIVA) :
    (setRetencion acc c x).reteiva_val = acc.reteiva_val := by
  unfold setRetencion
  cases c <;> simp_all

theorem retefuente_val_preservado {cat : Catalogos} {i : ℕ} {fila : Fila}
    {s v n : ℚ} {acc : Retenciones} {c : Casilla} (hc : c ≠ Casilla.RETEFUENTE) :
    (procesar_casilla cat i fila s v n acc c).2.2.retefuente_val =
      acc.retefuente_val := by
  simp only [procesar_casilla]
  unfold aplicar_retencion
  repeat' split
  all_goals first
    | rfl
    | exact setRetencion_retefuente hc

theorem reteica_val_preservado {cat : Catalogos} {i : ℕ} {fila : Fila}
    {s v n : ℚ} {acc : Retenciones} {c : Casilla} (hc : c ≠ Casilla.RETEICA) :
    (procesar_casilla cat i fila s v n acc c).2.2.reteica_val = acc.reteica_val := by
  simp only [procesar_casilla]
  unfold aplicar_retencion
  repeat' split
  all_goals first
    | rfl
    | exact setRetencion_reteica hc

theorem reteiva_val_preservado {cat : Catalogos} {i : ℕ} {fila : Fila}
    {s v n : ℚ} {acc : Retenciones} {c : Casilla} (hc : c ≠ Casilla.RETEIVA) :
    (procesar_casilla cat i fila s v n acc c).2.2.reteiva_val = acc.reteiva_val := by
  simp only [procesar_casilla]
  unfold aplicar_retencion
  repeat' split
  all_goals first
    | rfl
    | exact setRetencion_reteiva hc

theorem casilla_retencion_sin_porcentaje {cat : Catalogos} {i : ℕ} {fila : Fila}
    {s v n : ℚ} {acc : Retenciones} {c : Casilla} {nid : ℤ} {cc : CuentaContableProveedor}
    (hr : esRetencion c = true)
    (h1 : cuentaOf fila c = some (.id nid)) (h2 : cat.porId nid = some cc)
    (h3 : fila.proveedor_id = some cc.proveedor_id) (h4 : cc.casilla = c)
    (h5 : validar_prefijo_para_casilla c cc.cuenta.codigo = none)
    (h6 : cc.naturaleza = (CASILLA_RULES c).naturaleza)
    (hp : cc.porcentaje = none) :
    (procesar_casilla cat i fila s v n acc c).1.porcentaje = none ∧
    (procesar_casilla cat i fila s v n acc c).1.valor = none ∧
    (procesar_casilla cat i fila s v n acc c).2.2 = acc ∧
    (⟨some i, fila.factura_id, some (CASILLA_FIELD_MAP c),
      (CASILLA_RULES c).mensaje_sin_opciones⟩ : ErrorLiq) ∈
      (procesar_casilla cat i fila s v n acc c).2.1 := by
  have hres := @resolver_cuenta_valido cat i fila c (CASILLA_FIELD_MAP c)
    (cuentaOf fila c) nid cc h1 h2 h3 h4 h5 h6
  have hcTN : c ≠ Casilla.TOTAL_NETO := by
    revert hr
    cases c <;> decide
  simp only [procesar_casilla, hres]
  simp only [aplicar_retencion, hr, hp, if_true]
  simp only [aplicar_total_neto, if_neg hcTN]
  simp [List.mem_append, info_inicial]



/-- C10: when a withholding slot's chosen account resolves fully (exists,
belongs to the row's provider, carries the slot, passes the prefix and
nature checks) but its catalog percentage is unset, the engine emits the
slot's "no options" finding, leaves the slot's computed percentage and value
unset (so the retention calculator's outputs never appear), and that slot's
withholding accumulator stays zero for the net-total derivation. -/
theorem retencion_sin_porcentaje :
    ∀ (cat : Catalogos) (i : ℕ) (fila : Fila) (c : Casilla) (nid : ℤ)
      (cc : CuentaContableProveedor),
      esRetencion c = true →
      cuentaOf fila c = some (.id nid) →
      cat.porId nid = some cc →
      fila.proveedor_id = some cc.proveedor_id →
      cc.casilla = c →
      validar_prefijo_para_casilla c cc.cuenta.codigo = none →
      cc.naturaleza = (CASILLA_RULES c).naturaleza →
      cc.porcentaje = none →
      ((procesar_fila cat i fila).2.casillas c).porcentaje = none ∧
      ((procesar_fila cat i fila).2.casillas c).valor = none ∧
      valorRetencionFila (procesar_fila cat i fila).2 c = 0 ∧
      (⟨some i, fila.factura_id, some (CASILLA_FIELD_MAP c),
        (CASILLA_RULES c).mensaje_sin_opciones⟩ : ErrorLiq) ∈
        (procesar_fila cat i fila).1 := by
  intro cat i fila c nid cc hr h1 h2 h3 h4 h5 h6 hp
  have hkey := fun (s v n : ℚ) (acc : Retenciones) =>
    @casilla_retencion_sin_porcentaje cat i fila s v n acc c nid cc
      hr h1 h2 h3 h4 h5 h6 hp
  cases c with
  | RETEFUENTE =>
      refine ⟨?_, ?_, ?_, ?_⟩ <;> simp only [procesar_fila, valorRetencionFila]
      · exact (hkey _ _ _ _).1
      · exact (hkey _ _ _ _).2.1
      · rw [retefuente_val_preservado (by decide), retefuente_val_preservado (by decide),
          retefuente_val_preservado (by decide), (hkey _ _ _ _).2.2.1,
          retefuente_val_preservado (by decide), retefuente_val_preservado (by decide),
          retefuente_val_preservado (by decide)]
      · simp only [List.mem_append]
        exact Or.inl (Or.inl (Or.inl (Or.inr (hkey _ _ _ _).2.2.2)))
  | RETEICA =>
      refine ⟨?_, ?_, ?_, ?_⟩ <;> simp only [procesar_fila, valorRetencionFila]
      · exact (hkey _ _ _ _).1
      · exact (hkey _ _ _ _).2.1
      · rw [reteica_val_preservado (by decide), reteica_val_preservado (by decide),
          (hkey _ _ _ _).2.2.1, reteica_val_preservado (by decide),
          reteica_val_preservado (by decide), reteica_val_preservado (by decide),
          reteica_val_preservado (by decide)]
      · simp only [List.mem_append]
        exact Or.inl (Or.inl (Or.inr (hkey _ _ _ _).2.2.2))
  | RETEIVA =>
      refine ⟨?_, ?_, ?_, ?_⟩ <;> simp only [procesar_fila, valorRetencionFila]
      · exact (hkey _ _ _ _).1
      · exact (hkey _ _ _ _).2.1
      · rw [reteiva_val_preservado (by decide), (hkey _ _ _ _).2.2.1,
          reteiva_val_preservado (by decide), reteiva_val_preservado (by decide),
          reteiva_val_preservado (by decide), reteiva_val_preservado (by decide),
          reteiva_val_preservado (by decide)]
      · simp only [List.mem_append]
        exact Or.inl (Or.inr (hkey _ _ _ _).2.2.2)
  | SUBTOTAL => exact absurd hr (by decide)
  | IVA => exact absurd hr (by decide)
  | INC => exact absurd hr (by decide)
  | TOTAL_NETO => exact absurd hr (by decide)

/-- C10 witness: the theorem at a concrete catalog holding one
income-withholding entry with `porcentaje = None`. -/
theorem retencion_sin_porcentaje_witness :
    esRetencion Casilla.RETEFUENTE = true ∧
    cuentaOf filaSinPorcentaje .RETEFUENTE = some (.id 4) ∧
    catalogoSinPorcentaje.porId 4 = some entradaSinPorcentaje ∧
    ((procesar_fila catalogoSinPorcentaje 0 filaSinPorcentaje).2.casillas
      .RETEFUENTE).porcentaje = none ∧
    ((procesar_fila catalogoSinPorcentaje 0 filaSinPorcentaje).2.casillas
      .RETEFUENTE).valor = none ∧
    valorRetencionFila (procesar_fila catalogoSinPorcentaje 0 filaSinPorcentaje).2
      .RETEFUENTE = 0 ∧
    (⟨some 0, none, some "retefuente", MSG_SIN_OPCIONES_RETEFUENTE⟩ : ErrorLiq) ∈
      (procesar_fila catalogoSinPorcentaje 0 filaSinPorcentaje).1 := by
  have h := retencion_sin_porcentaje catalogoSinPorcentaje 0 filaSinPorcentaje
    .RETEFUENTE 4 entradaSinPorcentaje (by decide) rfl (by with_unfolding_all rfl)
    rfl rfl (by with_unfolding_all rfl) rfl rfl
  exact ⟨by decide, rfl, by with_unfolding_all rfl, h.1, h.2.1, h.2.2.1, h.2.2.2⟩


/-- C8 counterexample: on the mixed pattern `"1.234,56"` (one comma, one
dot) the parser keeps the dot as the decimal point and strips the comma,
yielding `1.23456` — not the comma-as-decimal reading `1234.56` that the
claim describes for ambiguous mixed patterns. -/
theorem parse_decimal_patron_mixto_contraejemplo :
    _parse_decimal (some "1.234,56") 0 = 123456 / 100000 ∧
    _parse_decimal (some "1.234,56") 0 ≠ 123456 / 100 := by
  constructor
  · with_unfolding_all rfl
  · with_unfolding_all decide

/-- C8 (amended): `_parse_decimal` agrees everywhere with the amended
description `parseAmountSpec` — strip whitespace and dollar signs; exactly
one comma and no dot makes the comma the decimal point; otherwise
(including every mixed comma/dot pattern) the dot is the decimal point and
commas are dropped as grouping; anything that still fails to parse yields
exactly zero. -/
theorem parse_decimal_amended_spec :
    ∀ v : Option String, _parse_decimal v 0 = parseAmountSpec v := by
  intro v
  rcases v with _ | s
  · rfl
  · unfold _parse_decimal parseAmountSpec separar_decimales
    dsimp only
    split_ifs <;> try rfl
    · cases pyDecimalOfChars (replaceChar ',' '.' (removeChar '$' (stripEnds s.data))) <;> rfl
    · cases pyDecimalOfChars (removeChar ',' (removeChar '$' (stripEnds s.data))) <;> rfl



def esDigitoChar (c : Char) : Prop := ∃ d, d < 10 ∧ c = digitChar d

theorem digitChar_props {d : ℕ} (h : d < 10) :
    (digitChar d).isDigit = true ∧ digitChar d ≠ '.' ∧ digitChar d ≠ '-' ∧
    digitChar d ≠ '+' ∧ digitChar d ≠ ',' ∧ digitChar d ≠ '$' ∧
    digitChar d ≠ 'e' ∧ digitChar d ≠ 'E' ∧ isPyWhitespace (digitChar d) = false := by
  interval_cases d <;> exact ⟨by decide, by decide, by decide, by decide, by decide,
    by decide, by decide, by decide, by decide⟩

theorem natToChars_digitos (m : ℕ) : ∀ c ∈ natToChars m, esDigitoChar c := by
  intro c hc
  unfold natToChars at hc
  split at hc
  · simp at hc
    exact ⟨0, by norm_num, hc⟩
  · simp only [List.mem_map, List.mem_reverse] at hc
    obtain ⟨d, hd, rfl⟩ := hc
    exact ⟨d, Nat.digits_lt_base (by norm_num) hd, rfl⟩

theorem natToChars_ne_nil (m : ℕ) : natToChars m ≠ [] := by
  unfold natToChars
  split
  · simp
  · next h =>
    simp only [ne_eq, List.map_eq_nil_iff, List.reverse_eq_nil_iff]
    exact Nat.digits_ne_nil_iff_ne_zero.mpr h

theorem padLeft_digitos {k : ℕ} {l : List Char} (hl : ∀ c ∈ l, esDigitoChar c) :
    ∀ c ∈ padLeftZeros k l, esDigitoChar c := by
  intro c hc
  unfold padLeftZeros at hc
  rcases List.mem_append.mp hc with hrep | hmem
  · have := List.eq_of_mem_replicate hrep
    exact ⟨0, by norm_num, this⟩
  · exact hl c hmem

theorem dropWhile_eq_self_of_all {p : Char → Bool} {l : List Char}
    (h : ∀ c ∈ l, p c = false) : l.dropWhile p = l := by
  cases l with
  | nil => rfl
  | cons a t =>
      rw [List.dropWhile_cons, if_neg]
      simp [h a (by simp)]

theorem takeWhile_eq_self_of_all {p : Char → Bool} {l : List Char}
    (h : ∀ c ∈ l, p c = true) : l.takeWhile p = l ∧ l.dropWhile p = [] := by
  induction l with
  | nil => exact ⟨rfl, rfl⟩
  | cons a t ih =>
      have ha := h a (by simp)
      have iht := ih (fun c hc => h c (by simp [hc]))
      rw [List.takeWhile_cons, List.dropWhile_cons]
      simp [ha, iht.1, iht.2]

theorem takeWhile_append_cons {p : Char → Bool} {A : List Char} {c : Char} {B : List Char}
    (hA : ∀ a ∈ A, p a = true) (hc : p c = false) :
    (A ++ c :: B).takeWhile p = A ∧ (A ++ c :: B).dropWhile p = c :: B := by
  induction A with
  | nil =>
      rw [List.nil_append, List.takeWhile_cons, List.dropWhile_cons]
      simp [hc]
  | cons a t ih =>
      have ha := hA a (by simp)
      have iht := ih (fun x hx => hA x (by simp [hx]))
      rw [List.cons_append, List.takeWhile_cons, List.dropWhile_cons]
      simp [ha, iht.1, iht.2]

theorem stripEnds_eq_self {l : List Char} (h : ∀ c ∈ l, isPyWhitespace c = false) :
    stripEnds l = l := by
  unfold stripEnds
  rw [dropWhile_eq_self_of_all h, dropWhile_eq_self_of_all (by simpa using h),
    List.reverse_reverse]

theorem removeChar_eq_self {a : Char} {l : List Char} (h : ∀ c ∈ l, c ≠ a) :
    removeChar a l = l := by
  unfold removeChar
  rw [List.filter_eq_self]
  intro c hc
  simp [h c hc]



theorem charDigit_digitChar {d : ℕ} (h : d < 10) : charDigit (digitChar d) = d := by
  interval_cases d <;> decide

theorem foldr_digits_ofDigits {L : List ℕ} (hL : ∀ d ∈ L, d < 10) :
    L.foldr (fun d a => 10 * a + charDigit (digitChar d)) 0 = Nat.ofDigits 10 L := by
  induction L with
  | nil => rfl
  | cons d t ih =>
      rw [List.foldr_cons, Nat.ofDigits_cons, ih (fun x hx => hL x (by simp [hx])),
        charDigit_digitChar (hL d (by simp))]
      ring

theorem digitsVal_natToChars (m : ℕ) : digitsVal (natToChars m) = m := by
  unfold natToChars
  split
  · next h => subst h; decide
  · unfold digitsVal
    rw [List.map_reverse, List.foldl_reverse]
    have : (List.map digitChar (Nat.digits 10 m)).foldr
        (fun x y => 10 * y + charDigit x) 0 =
        (Nat.digits 10 m).foldr (fun d a => 10 * a + charDigit (digitChar d)) 0 := by
      rw [List.foldr_map]
    rw [this, foldr_digits_ofDigits (fun d hd => Nat.digits_lt_base (by norm_num) hd),
      Nat.ofDigits_digits]

theorem digitsVal_replicate_zero (z : ℕ) (l : List Char) :
    digitsVal (List.replicate z '0' ++ l) = digitsVal l := by
  induction z with
  | zero => rfl
  | succ k ih =>
      rw [List.replicate_succ, List.cons_append]
      unfold digitsVal at ih ⊢
      simpa [charDigit] using ih

theorem digitsVal_padLeft (k : ℕ) (l : List Char) :
    digitsVal (padLeftZeros k l) = digitsVal l :=
  digitsVal_replicate_zero _ _

theorem natToChars_len_le {m k : ℕ} (hk : 0 < k) (h : m < 10 ^ k) :
    (natToChars m).length ≤ k := by
  unfold natToChars
  split
  · simpa using hk
  · next hm =>
    simp only [List.length_map, List.length_reverse]
    rw [Nat.digits_len 10 m (by norm_num) hm]
    have := Nat.log_lt_of_lt_pow hm h
    omega

theorem padLeft_length {k : ℕ} {l : List Char} (h : l.length ≤ k) :
    (padLeftZeros k l).length = k := by
  unfold padLeftZeros
  simp [List.length_replicate]
  omega



theorem parseMantissa_render {R F : List Char}
    (hR : ∀ c ∈ R, esDigitoChar c) (hF : ∀ c ∈ F, esDigitoChar c)
    (hRne : R ≠ []) :
    parseMantissa (R ++ '.' :: F) =
      some ((digitsVal R : ℚ) + (digitsVal F : ℚ) / (10 : ℚ) ^ F.length) := by
  have hRdot : ∀ c ∈ R, notDot c = true := by
    intro c hc
    obtain ⟨d, hd, rfl⟩ := hR c hc
    simp [notDot, (digitChar_props hd).2.1]
  have hdot : notDot '.' = false := by decide
  have hFdot : F.any (fun c => c == '.') = false := by
    rw [List.any_eq_false]
    intro c hc
    obtain ⟨d, hd, rfl⟩ := hF c hc
    simp [(digitChar_props hd).2.1]
  have hRdig : R.all Char.isDigit = true := by
    rw [List.all_eq_true]
    intro c hc
    obtain ⟨d, hd, rfl⟩ := hR c hc
    exact (digitChar_props hd).1
  have hFdig : F.all Char.isDigit = true := by
    rw [List.all_eq_true]
    intro c hc
    obtain ⟨d, hd, rfl⟩ := hF c hc
    exact (digitChar_props hd).1
  have hRne' : R.isEmpty = false := by
    cases R
    · exact absurd rfl hRne
    · rfl
  unfold parseMantissa
  rw [(takeWhile_append_cons hRdot hdot).1, (takeWhile_append_cons hRdot hdot).2]
  simp [hFdot, hRdig, hFdig, hRne']

theorem splitSign_digit {c : Char} {l : List Char} (hc : esDigitoChar c) :
    splitSign (c :: l) = (1, c :: l) := by
  obtain ⟨d, hd, rfl⟩ := hc
  simp only [splitSign]
  rw [if_neg (digitChar_props hd).2.2.2.1, if_neg (digitChar_props hd).2.2.1]



theorem render_sin_espacios {R F : List Char}
    (hR : ∀ c ∈ R, esDigitoChar c) (hF : ∀ c ∈ F, esDigitoChar c) :
    (∀ c ∈ R ++ '.' :: F, isPyWhitespace c = false) ∧
    (∀ c ∈ R ++ '.' :: F, notExpChar c = true) := by
  constructor <;> intro c hc <;>
    (rcases List.mem_append.mp hc with h | h
     · first
        | (obtain ⟨d, hd, rfl⟩ := hR c h
           exact (digitChar_props hd).2.2.2.2.2.2.2.2)
        | (obtain ⟨d, hd, rfl⟩ := hR c h
           simp [notExpChar, (digitChar_props hd).2.2.2.2.2.2.1,
             (digitChar_props hd).2.2.2.2.2.2.2.1])
     · rcases List.mem_cons.mp h with rfl | h
       · decide
       · first
          | (obtain ⟨d, hd, rfl⟩ := hF c h
             exact (digitChar_props hd).2.2.2.2.2.2.2.2)
          | (obtain ⟨d, hd, rfl⟩ := hF c h
             simp [notExpChar, (digitChar_props hd).2.2.2.2.2.2.1,
               (digitChar_props hd).2.2.2.2.2.2.2.1]))

theorem pyDecimal_render_pos {R F : List Char}
    (hR : ∀ c ∈ R, esDigitoChar c) (hF : ∀ c ∈ F, esDigitoChar c)
    (hRne : R ≠ []) :
    pyDecimalOfChars (R ++ '.' :: F) =
      some ((digitsVal R : ℚ) + (digitsVal F : ℚ) / (10 : ℚ) ^ F.length) := by
  obtain ⟨hws, hexp⟩ := render_sin_espacios hR hF
  have hmant := takeWhile_eq_self_of_all hexp
  have hparse := parseMantissa_render hR hF hRne
  rcases hRl : R with _ | ⟨c, R'⟩
  · exact absurd hRl hRne
  · subst hRl
    simp only [pyDecimalOfChars, stripEnds_eq_self hws]
    simp only [List.cons_append] at hmant hparse ⊢
    rw [splitSign_digit (hR c (by simp))]
    dsimp only
    rw [hmant.1, hmant.2, hparse]
    simp

theorem pyDecimal_render_neg {R F : List Char}
    (hR : ∀ c ∈ R, esDigitoChar c) (hF : ∀ c ∈ F, esDigitoChar c)
    (hRne : R ≠ []) :
    pyDecimalOfChars ('-' :: (R ++ '.' :: F)) =
      some (-1 * ((digitsVal R : ℚ) + (digitsVal F : ℚ) / (10 : ℚ) ^ F.length)) := by
  obtain ⟨hws, hexp⟩ := render_sin_espacios hR hF
  have hws' : ∀ c ∈ '-' :: (R ++ '.' :: F), isPyWhitespace c = false := by
    intro c hc
    rcases List.mem_cons.mp hc with rfl | h
    · decide
    · exact hws c h
  have hmant := takeWhile_eq_self_of_all hexp
  have hparse := parseMantissa_render hR hF hRne
  simp only [pyDecimalOfChars, stripEnds_eq_self hws', splitSign]
  rw [if_neg (show ('-' : Char) ≠ '+' by decide)]
  simp only [if_true]
  rw [hmant.1, hmant.2, hparse]



theorem render_todo_bueno {R F : List Char}
    (hR : ∀ c ∈ R, esDigitoChar c) (hF : ∀ c ∈ F, esDigitoChar c) :
    (∀ c ∈ R ++ '.' :: F, c ≠ '$') ∧ (∀ c ∈ R ++ '.' :: F, c ≠ ',') := by
  constructor <;> intro c hc <;>
    (rcases List.mem_append.mp hc with h | h
     · first
        | (obtain ⟨d, hd, rfl⟩ := hR c h
           exact (digitChar_props hd).2.2.2.2.2.1)
        | (obtain ⟨d, hd, rfl⟩ := hR c h
           exact (digitChar_props hd).2.2.2.2.1)
     · rcases List.mem_cons.mp h with rfl | h
       · decide
       · first
          | (obtain ⟨d, hd, rfl⟩ := hF c h
             exact (digitChar_props hd).2.2.2.2.2.1)
          | (obtain ⟨d, hd, rfl⟩ := hF c h
             exact (digitChar_props hd).2.2.2.2.1))

set_option maxHeartbeats 1000000 in
/-- C9: formatting any rational to two decimal places with round-half-up
and re-parsing recovers exactly the value quantized to two places,
including negative values. -/
theorem parse_decimal_roundtrip :
    ∀ x : ℚ, _parse_decimal (some (_decimal_to_str x 2)) 0 = quantizePy 2 x := by
  intro x
  obtain ⟨n, hn⟩ : ∃ n : ℤ, roundHalfUpInt (x * (10 : ℚ) ^ 2) = n := ⟨_, rfl⟩
  have hstr : _decimal_to_str x 2 =
      String.mk ((if n < 0 then ['-'] else []) ++ natToChars (n.natAbs / 10 ^ 2) ++
        '.' :: padLeftZeros 2 (natToChars (n.natAbs % 10 ^ 2))) := by
    simp only [_decimal_to_str]
    rw [hn]
    norm_num
  have hquant : quantizePy 2 x = (n : ℚ) / (10 : ℚ) ^ 2 := by
    unfold quantizePy
    rw [hn]
  have hRdig : ∀ c ∈ natToChars (n.natAbs / 10 ^ 2), esDigitoChar c := natToChars_digitos _
  have hFdig : ∀ c ∈ padLeftZeros 2 (natToChars (n.natAbs % 10 ^ 2)), esDigitoChar c :=
    padLeft_digitos (natToChars_digitos _)
  have hRne : natToChars (n.natAbs / 10 ^ 2) ≠ [] := natToChars_ne_nil _
  obtain ⟨hws, _⟩ := render_sin_espacios hRdig hFdig
  obtain ⟨hdollar, hcoma⟩ := render_todo_bueno hRdig hFdig
  have hFlen : (padLeftZeros 2 (natToChars (n.natAbs % 10 ^ 2))).length = 2 :=
    padLeft_length (natToChars_len_le (by norm_num) (Nat.mod_lt _ (by norm_num)))
  have hvR : digitsVal (natToChars (n.natAbs / 10 ^ 2)) = n.natAbs / 10 ^ 2 :=
    digitsVal_natToChars _
  have hvF : digitsVal (padLeftZeros 2 (natToChars (n.natAbs % 10 ^ 2))) =
      n.natAbs % 10 ^ 2 := by
    rw [digitsVal_padLeft, digitsVal_natToChars]
  have hdam : ((10 : ℚ) ^ 2) * ((n.natAbs / 10 ^ 2 : ℕ) : ℚ) +
      ((n.natAbs % 10 ^ 2 : ℕ) : ℚ) = ((n.natAbs : ℕ) : ℚ) := by
    exact_mod_cast Nat.div_add_mod n.natAbs (10 ^ 2)
  rw [hstr, hquant]
  by_cases hneg : n < 0
  · rw [if_pos hneg]
    have hLeq : (['-'] ++ natToChars (n.natAbs / 10 ^ 2) ++
        '.' :: padLeftZeros 2 (natToChars (n.natAbs % 10 ^ 2))) =
        '-' :: (natToChars (n.natAbs / 10 ^ 2) ++
          '.' :: padLeftZeros 2 (natToChars (n.natAbs % 10 ^ 2))) := by
      simp
    rw [hLeq]
    have hwsm : ∀ c ∈ '-' :: (natToChars (n.natAbs / 10 ^ 2) ++
        '.' :: padLeftZeros 2 (natToChars (n.natAbs % 10 ^ 2))), isPyWhitespace c = false := by
      intro c hc
      rcases List.mem_cons.mp hc with rfl | h
      · decide
      · exact hws c h
    have hdollarm : ∀ c ∈ '-' :: (natToChars (n.natAbs / 10 ^ 2) ++
        '.' :: padLeftZeros 2 (natToChars (n.natAbs % 10 ^ 2))), c ≠ '$' := by
      intro c hc
      rcases List.mem_cons.mp hc with rfl | h
      · decide
      · exact hdollar c h
    have hcomam : ∀ c ∈ '-' :: (natToChars (n.natAbs / 10 ^ 2) ++
        '.' :: padLeftZeros 2 (natToChars (n.natAbs % 10 ^ 2))), c ≠ ',' := by
      intro c hc
      rcases List.mem_cons.mp hc with rfl | h
      · decide
      · exact hcoma c h
    simp only [_parse_decimal]
    rw [stripEnds_eq_self hwsm, removeChar_eq_self hdollarm]
    have hempty : ('-' :: (natToChars (n.natAbs / 10 ^ 2) ++
        '.' :: padLeftZeros 2 (natToChars (n.natAbs % 10 ^ 2)))).isEmpty = false := rfl
    rw [hempty]
    have hcount : List.count ',' ('-' :: (natToChars (n.natAbs / 10 ^ 2) ++
        '.' :: padLeftZeros 2 (natToChars (n.natAbs % 10 ^ 2)))) = 0 :=
      List.count_eq_zero.mpr (fun hmem => hcomam ',' hmem rfl)
    unfold separar_decimales
    rw [hcount]
    rw [if_neg (by norm_num), if_neg (by norm_num), removeChar_eq_self hcomam,
      pyDecimal_render_neg hRdig hFdig hRne]
    rw [hvR, hvF, hFlen]
    have hna : ((n.natAbs : ℕ) : ℚ) = -(n : ℚ) := by
      rw [Int.cast_natAbs, abs_of_neg hneg]
      push_cast
      ring
    rw [hna] at hdam
    field_simp at hdam ⊢
    linarith
  · rw [if_neg hneg]
    have hLeq : ([] ++ natToChars (n.natAbs / 10 ^ 2) ++
        '.' :: padLeftZeros 2 (natToChars (n.natAbs % 10 ^ 2))) =
        natToChars (n.natAbs / 10 ^ 2) ++
          '.' :: padLeftZeros 2 (natToChars (n.natAbs % 10 ^ 2)) := by
      simp
    rw [hLeq]
    simp only [_parse_decimal]
    rw [stripEnds_eq_self hws, removeChar_eq_self hdollar]
    have hempty : (natToChars (n.natAbs / 10 ^ 2) ++
        '.' :: padLeftZeros 2 (natToChars (n.natAbs % 10 ^ 2))).isEmpty = false := by
      rcases hRl : natToChars (n.natAbs / 10 ^ 2) with _ | ⟨c, t⟩
      · exact absurd hRl hRne
      · rfl
    rw [hempty]
    have hcount : List.count ',' (natToChars (n.natAbs / 10 ^ 2) ++
        '.' :: padLeftZeros 2 (natToChars (n.natAbs % 10 ^ 2))) = 0 :=
      List.count_eq_zero.mpr (fun hmem => hcoma ',' hmem rfl)
    unfold separar_decimales
    rw [hcount]
    rw [if_neg (by norm_num), if_neg (by norm_num), removeChar_eq_self hcoma,
      pyDecimal_render_pos hRdig hFdig hRne]
    rw [hvR, hvF, hFlen]
    have hna : ((n.natAbs : ℕ) : ℚ) = (n : ℚ) := by
      rw [Int.cast_natAbs, abs_of_nonneg (not_lt.mp hneg)]
    rw [hna] at hdam
    field_simp at hdam ⊢
    linarith


end Facturacion
